import Mathlib

/-!
Shallow embedding of the AnkiGarden garden state machine (src/state.py,
src/tracker.py, src/constants.py) and proofs about the claims of the
natural-language specification.

Modelling conventions:
* Python `datetime` values are modelled as `Int` timestamps (seconds);
  `timedelta(days=d)` becomes `d * dayLen` with `dayLen = 86400`.
* `from_iso` parsing failure / missing timestamps are modelled by `Option Int`
  fields on tiles (`none` = missing or unparseable).
* Python dict tiles become the `Tile` structure; `tile.get("is_reference")`
  (falsy default) becomes the Bool field `is_reference`.
* The persistent document (`self.data`) becomes `Doc`; mutating methods become
  functions `Doc → ... → Doc × result`.  `self._save()` only writes the
  in-memory document to disk and is not modelled; the in-memory document is
  the authority.
* `random.choice(COLORFUL_PLANT_COLORS)` is modelled by an explicit
  `colorChoice : Nat` parameter indexing into the palette modulo its length.
* `uuid.uuid4()` is modelled by an explicit `freshId : Nat` parameter.
* List indices are `Int` (as in Python); every source code path guards
  `idx < 0` before indexing, and `tileAt` / `setTileAt` implement the guarded
  access used on those paths.
-/

namespace AnkiGarden

/-- `GARDEN_WIDTH` from src/constants.py. -/
def GARDEN_WIDTH : Int := 15

/-- `GARDEN_HEIGHT` from src/constants.py. -/
def GARDEN_HEIGHT : Int := 7

/-- One day's worth of model time units (`timedelta(days=1)`). -/
def dayLen : Int := 86400

/-- `COLORFUL_PLANT_COLORS` from src/constants.py. -/
def COLORFUL_PLANT_COLORS : List String :=
  ["red", "orange", "yellow", "dark_blue", "light_blue", "purple", "pink", "teal"]

/-- `INVENTORY_KEYS` from src/constants.py. -/
def INVENTORY_KEYS : List String :=
  ["water", "plants", "trees", "sunlight", "coins", "seeds", "path"]

/-- A garden tile (Python tile dict from src/state.py).  `none` timestamp
fields model missing keys or unparseable ISO strings. -/
structure Tile where
  id : Nat
  kind : String
  planted_at : Option Int
  last_watered_at : Option Int
  bloom_until : Option Int
  color : Option String
  evolution_stage : Option String
  row : Int
  col : Int
  is_reference : Bool
deriving DecidableEq, Repr

/-- The inventory dict (`self.data["inventory"]`). -/
structure Inventory where
  water : Int
  plants : Int
  trees : Int
  sunlight : Int
  coins : Int
  seeds : Int
  path : Int
deriving DecidableEq, Repr

/-- `int(inv.get(key, 0))`. -/
def Inventory.get (inv : Inventory) (k : String) : Int :=
  if k = "water" then inv.water
  else if k = "plants" then inv.plants
  else if k = "trees" then inv.trees
  else if k = "sunlight" then inv.sunlight
  else if k = "coins" then inv.coins
  else if k = "seeds" then inv.seeds
  else if k = "path" then inv.path
  else 0

/-- `inv[key] = v`. -/
def Inventory.setKey (inv : Inventory) (k : String) (v : Int) : Inventory :=
  if k = "water" then { inv with water := v }
  else if k = "plants" then { inv with plants := v }
  else if k = "trees" then { inv with trees := v }
  else if k = "sunlight" then { inv with sunlight := v }
  else if k = "coins" then { inv with coins := v }
  else if k = "seeds" then { inv with seeds := v }
  else if k = "path" then { inv with path := v }
  else inv

/-- The persistent document `self.data` (the parts the claims are about):
inventory, the flat row-major tile list, and the path-edge list. -/
structure Doc where
  inventory : Inventory
  tiles : List (Option Tile)
  paths : List (Int × Int × String)
deriving DecidableEq, Repr

/-- Guarded list read `tiles[idx]` for an `Int` index (the source always
guards `0 <= idx < len(tiles)` before indexing on the paths modelled here). -/
def tileAt (tiles : List (Option Tile)) (idx : Int) : Option Tile :=
  if 0 ≤ idx then (tiles.get? idx.toNat).getD none else none

/-- Guarded list write `tiles[idx] = v`. -/
def setTileAt (tiles : List (Option Tile)) (idx : Int) (v : Option Tile) :
    List (Option Tile) :=
  if 0 ≤ idx then tiles.set idx.toNat v else tiles

/-- `AddonState.row_col_to_index` (src/state.py). -/
def row_col_to_index (row col : Int) : Option Int :=
  if row < 0 ∨ col < 0 then none
  else if row ≥ GARDEN_HEIGHT ∨ col ≥ GARDEN_WIDTH then none
  else some (row * GARDEN_WIDTH + col)

/-- `AddonState.index_to_row_col` (src/state.py); Python `divmod` is floor
division, hence `Int.fdiv` / `Int.fmod`. -/
def index_to_row_col (idx : Int) : Int × Int :=
  (Int.fdiv idx GARDEN_WIDTH, Int.fmod idx GARDEN_WIDTH)

/-- The computed status flags for a tile (`TileStatus` in src/state.py). -/
structure TileStatus where
  is_empty : Bool := true
  is_blooming : Bool := false
  is_wilted : Bool := false
  is_dead : Bool := false
  wilt_level : Int := 0
deriving DecidableEq, Repr

/-- `AddonState.tile_status` (src/state.py lines 1046-1106). -/
def tile_status (tile : Option Tile) (now : Int) : TileStatus :=
  match tile with
  | none => {}
  | some t =>
    let s0 : TileStatus := { is_empty := false }
    let s1 :=
      match t.bloom_until with
      | some b => if b > now then { s0 with is_blooming := true } else s0
      | none => s0
    match t.last_watered_at with
    | none => { s1 with is_dead := true }
    | some lw =>
      let delta := now - lw
      if t.kind = "plant" then
        if delta > 3 * dayLen then { s1 with is_dead := true }
        else if delta ≥ 2 * dayLen then { s1 with is_wilted := true, wilt_level := 2 }
        else if delta ≥ 1 * dayLen then { s1 with is_wilted := true, wilt_level := 1 }
        else s1
      else if t.kind = "tree" then
        if delta > 2 * dayLen then { s1 with is_dead := true }
        else if delta ≥ 1 * dayLen then { s1 with is_wilted := true }
        else s1
      else if t.kind = "seed" ∨ t.kind = "colorful_plant" ∨ t.kind = "cherry_blossom" then
        if delta > 2 * dayLen then { s1 with is_dead := true }
        else if delta ≥ 1 * dayLen then { s1 with is_wilted := true, wilt_level := 1 }
        else s1
      else s1

/-- `AddonState.award_token` (src/state.py). -/
def award_token (s : Doc) (key : String) (amount : Int) : Doc :=
  if key ∉ INVENTORY_KEYS then s
  else { s with inventory := s.inventory.setKey key (s.inventory.get key + amount) }

/-- `AddonState.spend_token` (src/state.py). -/
def spend_token (s : Doc) (key : String) (amount : Int) : Doc × Bool :=
  if key ∉ INVENTORY_KEYS then (s, false)
  else if s.inventory.get key < amount then (s, false)
  else ({ s with inventory := s.inventory.setKey key (s.inventory.get key - amount) }, true)

/-- `AddonState._create_tile` (src/state.py): `uuid.uuid4()` is modelled by
the explicit `freshId` parameter and `utc_now()` by `now`. -/
def create_tile (kind : String) (row col now : Int) (freshId : Nat) : Tile :=
  { id := freshId
    kind := kind
    planted_at := some now
    last_watered_at := some now
    bloom_until := none
    color := none
    evolution_stage := if kind = "seed" then some "seed" else none
    row := row
    col := col
    is_reference := false }

/-- The four footprint cells of a 2x2 tile anchored at `(row, col)`, in the
source's loop order `dr in range(2), dc in range(2)`. -/
def footprintCells (row col : Int) : List (Int × Int) :=
  [(row, col), (row, col + 1), (row + 1, col), (row + 1, col + 1)]

/-- The inventory key charged for a placement kind (src/state.py lines
461-469). -/
def inv_key_for (kind : String) : Option String :=
  if kind = "plant" then some "plants"
  else if kind = "tree" then some "trees"
  else if kind = "seed" then some "seeds"
  else none

/-- `AddonState.place_at_index` (src/state.py lines 432-479).  Returns the
updated document together with the created tile (`none` on failure). -/
def place_at_index (s : Doc) (kind : String) (idx now : Int) (freshId : Nat) :
    Doc × Option Tile :=
  if kind ≠ "plant" ∧ kind ≠ "tree" ∧ kind ≠ "seed" then (s, none)
  else
    let tiles := s.tiles
    if idx < 0 ∨ idx ≥ (tiles.length : Int) then (s, none)
    else
      let rc := index_to_row_col idx
      let row := rc.1
      let col := rc.2
      let blocked : Bool :=
        if kind = "tree" then
          if row < 0 ∨ col < 0 ∨ row ≥ GARDEN_HEIGHT - 1 ∨ col ≥ GARDEN_WIDTH - 1 then
            true
          else
            (footprintCells row col).any fun p =>
              match row_col_to_index p.1 p.2 with
              | none => true
              | some ci => (tileAt tiles ci).isSome
        else
          (tileAt tiles idx).isSome
      if blocked then (s, none)
      else
        match inv_key_for kind with
        | none => (s, none)
        | some key =>
          if s.inventory.get key ≤ 0 then (s, none)
          else
            let tile := create_tile kind row col now freshId
            ({ s with
                tiles := setTileAt tiles idx (some tile)
                inventory := s.inventory.setKey key (s.inventory.get key - 1) },
             some tile)

/-- The loop in `AddonState.move_tile` clearing every reference record that
carries `mainId` (src/state.py lines 520-523; an enumerate-and-assign loop,
i.e. a pointwise map). -/
def clearRefsWithId (tiles : List (Option Tile)) (mainId : Nat) :
    List (Option Tile) :=
  tiles.map fun t =>
    match t with
    | some tl => if tl.id = mainId ∧ tl.is_reference then none else some tl
    | none => none

/-- The reference record built by `AddonState.move_tile` at destination cell
`(r, c)` (src/state.py lines 547-558). -/
def mkMoveRef (tile : Tile) (r c : Int) : Tile :=
  { id := tile.id
    kind := "cherry_blossom"
    evolution_stage := tile.evolution_stage
    color := tile.color
    planted_at := tile.planted_at
    last_watered_at := tile.last_watered_at
    bloom_until := tile.bloom_until
    row := r
    col := c
    is_reference := true }

/-- `AddonState.move_tile` (src/state.py lines 489-572).  Note that for a
cherry blossom the source clears the reference records *before* validating
the destination footprint and does not restore them when that validation
fails; the embedding reproduces this (the failure result then carries the
cleared tile list). -/
def move_tile (s : Doc) (from_idx to_idx : Int) : Doc × Bool :=
  let tiles := s.tiles
  if from_idx < 0 ∨ to_idx < 0 ∨ from_idx ≥ (tiles.length : Int) ∨
      to_idx ≥ (tiles.length : Int) ∨ from_idx = to_idx then (s, false)
  else
    match tileAt tiles from_idx with
    | none => (s, false)
    | some tile =>
      let kind := tile.kind
      let rc := index_to_row_col to_idx
      let to_row := rc.1
      let to_col := rc.2
      if kind = "tree" ∨ kind = "cherry_blossom" then
        if to_row < 0 ∨ to_col < 0 ∨ to_row ≥ GARDEN_HEIGHT - 1 ∨
            to_col ≥ GARDEN_WIDTH - 1 then (s, false)
        else
          let tiles1 :=
            if kind = "cherry_blossom" then clearRefsWithId tiles tile.id else tiles
          if (footprintCells to_row to_col).any (fun p =>
                match row_col_to_index p.1 p.2 with
                | none => true
                | some ci => ci ≠ from_idx ∧ (tileAt tiles1 ci).isSome) then
            ({ s with tiles := tiles1 }, false)
          else
            let tiles2 :=
              if kind = "cherry_blossom" then
                (footprintCells to_row to_col).foldl
                  (fun acc p =>
                    match row_col_to_index p.1 p.2 with
                    | some ci =>
                      if ci ≠ to_idx then
                        setTileAt acc ci (some (mkMoveRef tile p.1 p.2))
                      else acc
                    | none => acc)
                  tiles1
              else tiles1
            let movedTile := { tile with row := to_row, col := to_col }
            let tiles3 := setTileAt tiles2 to_idx (some movedTile)
            let tiles4 := setTileAt tiles3 from_idx none
            ({ s with tiles := tiles4 }, true)
      else
        if (tileAt tiles to_idx).isSome then (s, false)
        else
          let movedTile := { tile with row := to_row, col := to_col }
          let tiles3 := setTileAt tiles to_idx (some movedTile)
          let tiles4 := setTileAt tiles3 from_idx none
          ({ s with tiles := tiles4 }, true)

/-- The reference-resolution loop at the top of `AddonState.water_tile`
(src/state.py lines 867-874): the first non-reference record carrying
`mainId`, with its index. -/
def find_main_by_id (tiles : List (Option Tile)) (mainId : Nat) :
    Option (Int × Tile) :=
  tiles.enum.findSome? fun p =>
    match p.2 with
    | some tl =>
      if tl.id = mainId ∧ ¬tl.is_reference then some ((p.1 : Int), tl) else none
    | none => none

/-- `tile is not None and tile.get("kind") in ("tree", "cherry_blossom") and
not tile.get("is_reference")`. -/
def isMainTreeLike (t : Option Tile) : Bool :=
  match t with
  | some tl => (tl.kind = "tree" ∨ tl.kind = "cherry_blossom") ∧ ¬tl.is_reference
  | none => false

/-- `AddonState._find_tree_at_tile` (src/state.py lines 818-845).  The second
phase scans `(row - dr, col - dc)` in the loop order `dr, dc in range(2)`. -/
def find_tree_at_tile (tiles : List (Option Tile)) (row col : Int) : Option Int :=
  let direct : Option Int :=
    match row_col_to_index row col with
    | some idx => if isMainTreeLike (tileAt tiles idx) then some idx else none
    | none => none
  match direct with
  | some i => some i
  | none =>
    [(row, col), (row, col - 1), (row - 1, col), (row - 1, col - 1)].findSome?
      fun p =>
        match row_col_to_index p.1 p.2 with
        | some ci =>
          if isMainTreeLike (tileAt tiles ci) then
            let rc := index_to_row_col ci
            if rc.1 ≤ row ∧ row < rc.1 + 2 ∧ rc.2 ≤ col ∧ col < rc.2 + 2 then
              some ci
            else none
          else none
        | none => none

/-- `AddonState.water_tile` (src/state.py lines 847-905).  The Bool result is
the success flag (the human-readable message strings are not modelled). -/
def water_tile (s : Doc) (row col now : Int) : Doc × Bool :=
  match row_col_to_index row col with
  | none => (s, false)
  | some idx =>
    let tiles := s.tiles
    if idx ≥ (tiles.length : Int) then (s, false)
    else
      match tileAt tiles idx with
      | none => (s, false)
      | some tile0 =>
        let resolved : Int × Tile :=
          if tile0.is_reference then
            match find_main_by_id tiles tile0.id with
            | some pr => pr
            | none => (idx, tile0)
          else (idx, tile0)
        let rtile := resolved.2
        if (tile_status (some rtile) now).is_dead then (s, false)
        else
          let kind := rtile.kind
          let cost : Int := if kind = "tree" ∨ kind = "cherry_blossom" then 4 else 1
          let target : Option (Int × Tile) :=
            if kind = "tree" ∨ kind = "cherry_blossom" then
              match find_tree_at_tile tiles row col with
              | none => none
              | some ti =>
                match tileAt tiles ti with
                | some tt => some (ti, tt)
                | none => none
            else some resolved
          match target with
          | none => (s, false)
          | some pr =>
            if s.inventory.get "water" < cost then (s, false)
            else
              ({ s with
                  tiles := setTileAt tiles pr.1
                    (some { pr.2 with last_watered_at := some now })
                  inventory := s.inventory.setKey "water"
                    (s.inventory.get "water" - cost) },
               true)

/-- `AddonState.water_all` (src/state.py lines 596-627). -/
def water_all (s : Doc) (now : Int) : Doc × Bool :=
  let tiles := s.tiles
  let has_living :=
    tiles.any fun t => t.isSome ∧ ¬(tile_status t now).is_dead
  if ¬has_living then (s, false)
  else
    let sp := spend_token s "water" 1
    if ¬sp.2 then (s, false)
    else
      let tiles2 := tiles.map fun t =>
        match t with
        | some tl =>
          if ¬(tile_status (some tl) now).is_dead then
            some { tl with last_watered_at := some now }
          else some tl
        | none => none
      ({ sp.1 with tiles := tiles2 }, true)

/-- `AddonState.place_path` (src/state.py lines 699-732). -/
def place_path (s : Doc) (row col : Int) (direction : String) : Doc × Bool :=
  if direction ≠ "n" ∧ direction ≠ "s" ∧ direction ≠ "e" ∧ direction ≠ "w" then
    (s, false)
  else if row < 0 ∨ row ≥ GARDEN_HEIGHT ∨ col < 0 ∨ col ≥ GARDEN_WIDTH then
    (s, false)
  else
    let key := (row, col, direction)
    if key ∈ s.paths then (s, false)
    else
      let sp := spend_token s "path" 1
      if ¬sp.2 then (s, false)
      else ({ sp.1 with paths := sp.1.paths ++ [key] }, true)

/-- `AddonState.remove_path` (src/state.py lines 734-748); `list.remove`
deletes the first occurrence, i.e. `List.erase`. -/
def remove_path (s : Doc) (row col : Int) (direction : String) : Doc × Bool :=
  let key := (row, col, direction)
  if key ∈ s.paths then
    (award_token { s with paths := s.paths.erase key } "path" 1, true)
  else (s, false)

/-- The reference record built by the cherry-blossom evolution at footprint
cell `(r, c)` (src/state.py lines 1028-1039); `tile` is the already-updated
primary, so `planted_at` carries the reset value. -/
def mkEvoRef (tile : Tile) (color : String) (r c : Int) : Tile :=
  { id := tile.id
    kind := "cherry_blossom"
    evolution_stage := some "cherry_blossom"
    color := some color
    planted_at := tile.planted_at
    last_watered_at := tile.last_watered_at
    bloom_until := tile.bloom_until
    row := r
    col := c
    is_reference := true }

/-- `AddonState._evolve_tile_if_needed` (src/state.py lines 956-1044).  The
Python method receives the tile dict together with its index; every caller
passes `tile = tiles[idx]` (aliasing), so the embedding reads the tile from
the document at `idx`.  `random.choice` is modelled by `colorChoice`. -/
def evolve_tile_if_needed (s : Doc) (idx now : Int) (colorChoice : Nat) :
    Doc × Bool :=
  match tileAt s.tiles idx with
  | none => (s, false)
  | some tile =>
    let kind := tile.kind
    let stage : Option String :=
      match tile.evolution_stage with
      | some st => some st
      | none => if kind = "seed" then some "seed" else none
    match tile.planted_at, tile.last_watered_at with
    | some planted_at, some last_watered_at =>
      if now - last_watered_at > 2 * dayLen then (s, false)
      else
        let delta_planted := now - planted_at
        if kind = "seed" ∧ stage = some "seed" ∧ delta_planted ≥ 7 * dayLen then
          let color := COLORFUL_PLANT_COLORS.getD
            (colorChoice % COLORFUL_PLANT_COLORS.length) ""
          let tile2 := { tile with
            kind := "colorful_plant"
            evolution_stage := some "colorful_plant"
            color := some color
            planted_at := some now }
          ({ s with tiles := setTileAt s.tiles idx (some tile2) }, true)
        else if kind = "colorful_plant" ∧ stage = some "colorful_plant" ∧
            delta_planted ≥ 7 * dayLen then
          match tile.color with
          | none => (s, false)
          | some color =>
            let rc := index_to_row_col idx
            let row := rc.1
            let col := rc.2
            if row < 0 ∨ col < 0 ∨ row ≥ GARDEN_HEIGHT - 1 ∨
                col ≥ GARDEN_WIDTH - 1 then (s, false)
            else if (footprintCells row col).any (fun p =>
                  match row_col_to_index p.1 p.2 with
                  | none => true
                  | some ci => ci ≠ idx ∧ (tileAt s.tiles ci).isSome) then
              (s, false)
            else
              let tile2 := { tile with
                kind := "cherry_blossom"
                evolution_stage := some "cherry_blossom"
                planted_at := some now }
              let tiles1 := setTileAt s.tiles idx (some tile2)
              let tiles2 := (footprintCells row col).foldl
                (fun acc p =>
                  match row_col_to_index p.1 p.2 with
                  | some ci =>
                    if ci ≠ idx then
                      setTileAt acc ci (some (mkEvoRef tile2 color p.1 p.2))
                    else acc
                  | none => acc)
                tiles1
              ({ s with tiles := tiles2 }, true)
        else (s, false)
    | _, _ => (s, false)

/-- `GARDEN_WIDTH * GARDEN_HEIGHT` as a list length. -/
def EXPECTED_LEN : Nat := 105

/-- The iteration pairs `(r, c)` of the nested overlap-copy loops in
`AddonState._ensure_defaults` (src/state.py lines 199-204), in loop order. -/
def overlapPairs (old_w old_h : Int) : List (Nat × Nat) :=
  (List.range (min old_h GARDEN_HEIGHT).toNat).flatMap fun r =>
    (List.range (min old_w GARDEN_WIDTH).toNat).map fun c => (r, c)

/-- The grid-resize portion of `AddonState._ensure_defaults` (src/state.py
lines 188-210): given the stored `width`/`height` (after the
`int(garden.get(...))` defaulting) and the stored tile array, produce the
tile array of the current fixed size. -/
def ensure_tiles (old_w old_h : Int) (tiles : List (Option Tile)) :
    List (Option Tile) :=
  if tiles.length = EXPECTED_LEN then tiles
  else
    let base : List (Option Tile) := List.replicate EXPECTED_LEN none
    if (max old_w 0) * (max old_h 0) = (tiles.length : Int) ∧ 0 < old_w ∧ 0 < old_h
    then
      (overlapPairs old_w old_h).foldl
        (fun acc rc =>
          let old_idx : Int := (rc.1 : Int) * old_w + (rc.2 : Int)
          let new_idx : Nat := rc.1 * 15 + rc.2
          if 0 ≤ old_idx ∧ old_idx.toNat < tiles.length ∧ new_idx < acc.length then
            acc.set new_idx (tileAt tiles old_idx)
          else acc)
        base
    else
      (List.range (min tiles.length EXPECTED_LEN)).foldl
        (fun acc i => acc.set i ((tiles.get? i).getD none)) base

/-- `StreakTracker` (src/tracker.py): the session streak counter, the
per-run awarded-threshold set (modelled as a list with membership checks,
matching the Python `set` usage), and the persistent document it mutates
through `award_token`. -/
structure Tracker where
  doc : Doc
  current_streak : Int
  awarded_multiples : List (Int × Int)
deriving DecidableEq, Repr

/-- `StreakTracker.reset` (src/tracker.py lines 28-32). -/
def Tracker.reset (t : Tracker) : Tracker :=
  { t with current_streak := 0, awarded_multiples := [] }

/-- `StreakTracker._maybe_award_for_streak` (src/tracker.py lines 56-109);
the tooltip display is not modelled. -/
def maybe_award_for_streak (t : Tracker) : Tracker :=
  let streak := t.current_streak
  let water_hit := streak = 15 ∧ (15, 1) ∉ t.awarded_multiples
  let t1 :=
    if water_hit then
      { t with awarded_multiples := t.awarded_multiples ++ [(15, 1)] }
    else t
  let plant_hit := streak = 30 ∧ (30, 1) ∉ t1.awarded_multiples
  let t2 :=
    if plant_hit then
      { t1 with awarded_multiples := t1.awarded_multiples ++ [(30, 1)] }
    else t1
  let tree_hit := streak = 50 ∧ (50, 1) ∉ t2.awarded_multiples
  let t3 :=
    if tree_hit then
      { t2 with awarded_multiples := t2.awarded_multiples ++ [(50, 1)] }
    else t2
  let t4 := if water_hit then { t3 with doc := award_token t3.doc "water" 1 } else t3
  let t5 := if plant_hit then { t4 with doc := award_token t4.doc "plants" 1 } else t4
  if tree_hit then { t5 with doc := award_token t5.doc "trees" 1 } else t5

/-- `StreakTracker.handle_answer` (src/tracker.py lines 34-51). -/
def handle_answer (t : Tracker) (ease : Int) : Tracker :=
  if ease ≤ 1 then t.reset
  else
    let t1 := { t with doc := award_token t.doc "coins" 1 }
    let t2 := { t1 with current_streak := t1.current_streak + 1 }
    maybe_award_for_streak t2

/-! ### Basic lemmas about the embedding -/

lemma setTileAt_length (tiles : List (Option Tile)) (idx : Int) (v : Option Tile) :
    (setTileAt tiles idx v).length = tiles.length := by
  unfold setTileAt
  split <;> simp

lemma tileAt_neg (tiles : List (Option Tile)) {idx : Int} (h : idx < 0) :
    tileAt tiles idx = none := by
  unfold tileAt
  rw [if_neg (by omega)]

lemma tileAt_setTileAt_self (tiles : List (Option Tile)) {idx : Int}
    (h0 : 0 ≤ idx) (h1 : idx < (tiles.length : Int)) (v : Option Tile) :
    tileAt (setTileAt tiles idx v) idx = v := by
  unfold tileAt setTileAt
  rw [if_pos h0, if_pos h0]
  have hlt : idx.toNat < tiles.length := by omega
  simp [List.get?_eq_getElem?, List.getElem?_set_eq_of_lt, hlt]

lemma tileAt_setTileAt_ne (tiles : List (Option Tile)) {idx jdx : Int}
    (h : idx ≠ jdx) (v : Option Tile) :
    tileAt (setTileAt tiles idx v) jdx = tileAt tiles jdx := by
  unfold tileAt setTileAt
  by_cases h0 : 0 ≤ idx
  · by_cases h1 : 0 ≤ jdx
    · rw [if_pos h0, if_pos h1, if_pos h1]
      have : idx.toNat ≠ jdx.toNat := by omega
      rw [List.get?_set_ne _ _ this]
    · rw [if_pos h0, if_neg h1, if_neg h1]
  · rw [if_neg h0]

lemma row_col_to_index_some {row col : Int} (h0 : 0 ≤ row) (h1 : row < 7)
    (h2 : 0 ≤ col) (h3 : col < 15) :
    row_col_to_index row col = some (row * 15 + col) := by
  unfold row_col_to_index GARDEN_HEIGHT GARDEN_WIDTH
  rw [if_neg (by omega), if_neg (by omega)]

lemma row_col_to_index_none {row col : Int}
    (h : row < 0 ∨ col < 0 ∨ 7 ≤ row ∨ 15 ≤ col) :
    row_col_to_index row col = none := by
  unfold row_col_to_index GARDEN_HEIGHT GARDEN_WIDTH
  split_ifs with a b <;> first | rfl | omega

lemma index_to_row_col_spec {idx : Int} (h : 0 ≤ idx) :
    0 ≤ (index_to_row_col idx).1 ∧ 0 ≤ (index_to_row_col idx).2 ∧
    (index_to_row_col idx).2 < 15 ∧
    (index_to_row_col idx).1 * 15 + (index_to_row_col idx).2 = idx := by
  unfold index_to_row_col GARDEN_WIDTH
  rw [Int.fdiv_eq_ediv _ (by norm_num), Int.fmod_eq_emod _ (by norm_num)]
  refine ⟨Int.ediv_nonneg h (by norm_num),
    Int.emod_nonneg _ (by norm_num), Int.emod_lt_of_pos _ (by norm_num), ?_⟩
  omega

/-! ### C1: tile_status -/

/-- C1: `tile_status` depends only on `(kind, last_watered_at, bloom_until,
now)` (it is a pure function and, being a function of an immutable value in
this embedding, cannot mutate the tile); a missing/unparseable
`last_watered_at` yields dead; the per-kind wilt/death thresholds are: plant
healthy < 1d, wilt level 1 on [1d, 2d), wilt level 2 on [2d, 3d], dead > 3d;
tree healthy < 1d, wilted on [1d, 2d], dead > 2d; seed / colorful_plant /
cherry_blossom healthy < 1d, wilt level 1 on [1d, 2d], dead > 2d; and
independently of health, `is_blooming` holds exactly when `bloom_until` is
present and greater than `now`. -/
theorem C1_tile_status_correct (t : Tile) (now : Int) :
    (∀ t' : Tile, t'.kind = t.kind → t'.last_watered_at = t.last_watered_at →
      t'.bloom_until = t.bloom_until →
      tile_status (some t') now = tile_status (some t) now) ∧
    ((tile_status (some t) now).is_blooming = true ↔
      ∃ b, t.bloom_until = some b ∧ now < b) ∧
    (t.last_watered_at = none → (tile_status (some t) now).is_dead = true) ∧
    (∀ lw, t.last_watered_at = some lw →
      (t.kind = "plant" →
        (((tile_status (some t) now).is_dead = true ↔ now - lw > 3 * dayLen) ∧
         ((tile_status (some t) now).is_wilted = true ∧
            (tile_status (some t) now).wilt_level = 2 ↔
            2 * dayLen ≤ now - lw ∧ now - lw ≤ 3 * dayLen) ∧
         ((tile_status (some t) now).is_wilted = true ∧
            (tile_status (some t) now).wilt_level = 1 ↔
            1 * dayLen ≤ now - lw ∧ now - lw < 2 * dayLen) ∧
         ((tile_status (some t) now).is_dead = false ∧
            (tile_status (some t) now).is_wilted = false ↔
            now - lw < 1 * dayLen))) ∧
      (t.kind = "tree" →
        (((tile_status (some t) now).is_dead = true ↔ now - lw > 2 * dayLen) ∧
         ((tile_status (some t) now).is_wilted = true ↔
            1 * dayLen ≤ now - lw ∧ now - lw ≤ 2 * dayLen) ∧
         ((tile_status (some t) now).is_dead = false ∧
            (tile_status (some t) now).is_wilted = false ↔
            now - lw < 1 * dayLen))) ∧
      ((t.kind = "seed" ∨ t.kind = "colorful_plant" ∨ t.kind = "cherry_blossom") →
        (((tile_status (some t) now).is_dead = true ↔ now - lw > 2 * dayLen) ∧
         ((tile_status (some t) now).is_wilted = true ∧
            (tile_status (some t) now).wilt_level = 1 ↔
            1 * dayLen ≤ now - lw ∧ now - lw ≤ 2 * dayLen) ∧
         ((tile_status (some t) now).is_dead = false ∧
            (tile_status (some t) now).is_wilted = false ↔
            now - lw < 1 * dayLen)))) := by
  refine ⟨?_, ?_, ?_, ?_⟩
  · intro t' hk hl hb
    simp only [tile_status, hk, hl, hb]
  · rcases hb : t.bloom_until with _ | b
    · rcases hl : t.last_watered_at with _ | lw <;>
        simp [tile_status, hb, hl] <;> split_ifs <;> simp
    · rcases hl : t.last_watered_at with _ | lw <;>
        simp [tile_status, hb, hl] <;> split_ifs <;> simp_all
  · intro hl
    rcases hb : t.bloom_until with _ | b <;> simp [tile_status, hb, hl] <;>
      split_ifs <;> simp
  · intro lw hlw
    refine ⟨?_, ?_, ?_⟩
    · intro hk
      rcases hb : t.bloom_until with _ | b <;>
        · simp only [tile_status, hb, hlw, hk, if_pos rfl]
          split_ifs <;> simp_all [dayLen] <;> omega
    · intro hk
      rcases hb : t.bloom_until with _ | b <;>
        · simp only [tile_status, hb, hlw, hk,
            if_neg (by decide : ¬("tree" : String) = "plant"), if_pos rfl]
          split_ifs <;> simp_all [dayLen] <;> omega
    · intro hk
      have hk1 : t.kind ≠ "plant" := by
        rcases hk with h | h | h <;> rw [h] <;> decide
      have hk2 : t.kind ≠ "tree" := by
        rcases hk with h | h | h <;> rw [h] <;> decide
      rcases hb : t.bloom_until with _ | b <;>
        · simp only [tile_status, hb, hlw, if_neg hk1, if_neg hk2, if_pos hk]
          split_ifs <;> simp_all [dayLen] <;> omega

/-- A concrete plant tile last watered at time 0 that still carries a bloom
flag valid until day 5. -/
def c1tile : Tile :=
  { id := 1, kind := "plant", planted_at := some 0, last_watered_at := some 0,
    bloom_until := some (5 * 86400), color := none, evolution_stage := none,
    row := 0, col := 0, is_reference := false }

/-- Witness for C1 at a concrete input: a plant idle for 4 days is dead and,
with a still-future `bloom_until`, nevertheless blooming. -/
theorem C1_tile_status_correct_witness :
    (tile_status (some c1tile) (4 * dayLen)).is_dead = true ∧
    (tile_status (some c1tile) (4 * dayLen)).is_blooming = true := by
  constructor
  · exact (((C1_tile_status_correct c1tile (4 * dayLen)).2.2.2 0 rfl).1
      rfl).1.mpr (by simp [dayLen])
  · exact (C1_tile_status_correct c1tile (4 * dayLen)).2.1.mpr
      ⟨5 * 86400, rfl, by simp [dayLen]⟩

/-! ### C7: path placement / removal -/

lemma get_path (inv : Inventory) : inv.get "path" = inv.path := rfl

lemma setKey_path (inv : Inventory) (v : Int) :
    inv.setKey "path" v = { inv with path := v } := rfl

lemma spend_token_path (s : Doc) :
    spend_token s "path" 1 =
      if s.inventory.path < 1 then (s, false)
      else ({ s with inventory := { s.inventory with path := s.inventory.path - 1 } },
        true) := by
  unfold spend_token
  rw [if_neg (by decide : ¬("path" : String) ∉ INVENTORY_KEYS)]
  rw [get_path, setKey_path]

lemma award_token_path (s : Doc) (n : Int) :
    award_token s "path" n =
      { s with inventory := { s.inventory with path := s.inventory.path + n } } := by
  unfold award_token
  rw [if_neg (by decide : ¬("path" : String) ∉ INVENTORY_KEYS)]
  rw [get_path, setKey_path]

/-- C7: placing a path on an already-present edge fails and changes nothing;
removing an absent edge fails and changes nothing; a successful placement
appends the edge and debits exactly one path token (tiles untouched); a
successful removal erases the edge and credits exactly one path token; and
under the placement preconditions a place followed by a remove of the same
edge returns the document to exactly its original value. -/
theorem C7_path_place_remove_inverse (s : Doc) (row col : Int) (dir : String) :
    ((row, col, dir) ∈ s.paths → place_path s row col dir = (s, false)) ∧
    ((row, col, dir) ∉ s.paths → remove_path s row col dir = (s, false)) ∧
    (∀ s', place_path s row col dir = (s', true) →
      s'.paths = s.paths ++ [(row, col, dir)] ∧
      s'.inventory = { s.inventory with path := s.inventory.path - 1 } ∧
      s'.tiles = s.tiles) ∧
    (∀ s', remove_path s row col dir = (s', true) →
      s'.paths = s.paths.erase (row, col, dir) ∧
      s'.inventory = { s.inventory with path := s.inventory.path + 1 } ∧
      s'.tiles = s.tiles) ∧
    ((dir = "n" ∨ dir = "s" ∨ dir = "e" ∨ dir = "w") →
      0 ≤ row → row < GARDEN_HEIGHT → 0 ≤ col → col < GARDEN_WIDTH →
      (row, col, dir) ∉ s.paths → 1 ≤ s.inventory.path →
      ∃ s1, place_path s row col dir = (s1, true) ∧
        remove_path s1 row col dir = (s, true)) := by
  refine ⟨?_, ?_, ?_, ?_, ?_⟩
  · intro hmem
    simp only [place_path, spend_token_path]
    split_ifs with h1 h2 h3 h4 <;> first
      | rfl
      | exact absurd hmem h3
  · intro hmem
    simp only [remove_path]
    rw [if_neg hmem]
  · intro s' hs'
    simp only [place_path, spend_token_path] at hs'
    split_ifs at hs' <;> simp only [Prod.mk.injEq] at hs' <;>
      first
        | exact absurd hs'.2 Bool.false_ne_true
        | exact ‹False›.elim
        | (obtain ⟨h, -⟩ := hs'
           subst h
           exact ⟨rfl, rfl, rfl⟩)
  · intro s' hs'
    simp only [remove_path, award_token_path] at hs'
    split_ifs at hs' with h1 <;> simp only [Prod.mk.injEq] at hs' <;>
      first
        | exact absurd hs'.2 Bool.false_ne_true
        | exact ‹False›.elim
        | (obtain ⟨h, -⟩ := hs'
           subst h
           exact ⟨rfl, rfl, rfl⟩)
  · intro hdir h0r h1r h0c h1c hmem hinv
    have hplace : place_path s row col dir =
        ({ s with
            inventory := { s.inventory with path := s.inventory.path - 1 }
            paths := s.paths ++ [(row, col, dir)] }, true) := by
      simp only [place_path]
      rw [if_neg (by rcases hdir with h | h | h | h <;> subst h <;> simp)]
      rw [if_neg (show ¬(row < 0 ∨ row ≥ GARDEN_HEIGHT ∨ col < 0 ∨
          col ≥ GARDEN_WIDTH) by push_neg; exact ⟨h0r, h1r, h0c, h1c⟩)]
      rw [if_neg hmem, spend_token_path]
      rw [if_neg (show ¬s.inventory.path < 1 by omega)]
      simp
    refine ⟨_, hplace, ?_⟩
    simp only [remove_path, award_token_path]
    rw [if_pos (show (row, col, dir) ∈ s.paths ++ [(row, col, dir)] by simp)]
    rw [List.erase_append_right _ (by simpa using hmem), List.erase_cons_head,
      List.append_nil]
    cases s with
    | mk inv tiles paths =>
      cases inv
      simp

/-- A concrete document with two path tokens and no paths placed. -/
def c7doc : Doc :=
  { inventory := { water := 0, plants := 0, trees := 0, sunlight := 0,
                   coins := 0, seeds := 0, path := 2 },
    tiles := [],
    paths := [] }

/-- Witness for C7 at a concrete input: placing then removing the north edge
of cell (0,0) restores the document exactly. -/
theorem C7_path_place_remove_inverse_witness :
    ∃ s1, place_path c7doc 0 0 "n" = (s1, true) ∧
      remove_path s1 0 0 "n" = (c7doc, true) :=
  (C7_path_place_remove_inverse c7doc 0 0 "n").2.2.2.2 (Or.inl rfl)
    (by decide) (by decide) (by decide) (by decide) (by simp [c7doc])
    (by decide)

/-! ### C8: streak tracker -/

lemma award_token_coins (s : Doc) (n : Int) :
    award_token s "coins" n =
      { s with inventory := { s.inventory with coins := s.inventory.coins + n } } :=
  rfl

lemma award_token_water (s : Doc) (n : Int) :
    award_token s "water" n =
      { s with inventory := { s.inventory with water := s.inventory.water + n } } :=
  rfl

lemma award_token_plants (s : Doc) (n : Int) :
    award_token s "plants" n =
      { s with inventory := { s.inventory with plants := s.inventory.plants + n } } :=
  rfl

lemma award_token_trees (s : Doc) (n : Int) :
    award_token s "trees" n =
      { s with inventory := { s.inventory with trees := s.inventory.trees + n } } :=
  rfl

/-- The all-zero inventory (`default_inventory`). -/
def zeroInv : Inventory :=
  { water := 0, plants := 0, trees := 0, sunlight := 0, coins := 0, seeds := 0,
    path := 0 }

/-- A document with empty inventory, no tiles and no paths. -/
def zeroDoc : Doc := { inventory := zeroInv, tiles := [], paths := [] }

/-- A fresh tracker over `zeroDoc` (session start). -/
def c8t0 : Tracker := { doc := zeroDoc, current_streak := 0, awarded_multiples := [] }

/-- Folding a sequence of answer events through the tracker. -/
def runAnswers (t : Tracker) (l : List Int) : Tracker := l.foldl handle_answer t

/-- C8: an incorrect answer (ease <= 1) resets the streak to 0, clears the
awarded-threshold set and awards nothing; a correct answer (ease > 1) awards
exactly 1 coin and increments the streak by 1, awards exactly 1 water
precisely when the new streak is exactly 15 and that threshold is unawarded
in this run (similarly 30 -> plant, 50 -> tree), and touches no other token;
concretely, 15 consecutive correct answers award exactly 1 water, a 16th
does not repeat it, and after a wrong answer at streak 14 reaching 15 again
re-awards water. -/
theorem C8_streak_thresholds (t : Tracker) (ease : Int) :
    (ease ≤ 1 → handle_answer t ease =
        { t with current_streak := 0, awarded_multiples := [] }) ∧
    (1 < ease →
      ((handle_answer t ease).current_streak = t.current_streak + 1 ∧
       (handle_answer t ease).doc.tiles = t.doc.tiles ∧
       (handle_answer t ease).doc.paths = t.doc.paths ∧
       (handle_answer t ease).doc.inventory.coins = t.doc.inventory.coins + 1 ∧
       (handle_answer t ease).doc.inventory.water = t.doc.inventory.water +
         (if t.current_streak + 1 = 15 ∧ (15, 1) ∉ t.awarded_multiples
          then 1 else 0) ∧
       (handle_answer t ease).doc.inventory.plants = t.doc.inventory.plants +
         (if t.current_streak + 1 = 30 ∧ (30, 1) ∉ t.awarded_multiples
          then 1 else 0) ∧
       (handle_answer t ease).doc.inventory.trees = t.doc.inventory.trees +
         (if t.current_streak + 1 = 50 ∧ (50, 1) ∉ t.awarded_multiples
          then 1 else 0) ∧
       (handle_answer t ease).doc.inventory.sunlight = t.doc.inventory.sunlight ∧
       (handle_answer t ease).doc.inventory.seeds = t.doc.inventory.seeds ∧
       (handle_answer t ease).doc.inventory.path = t.doc.inventory.path)) ∧
    (runAnswers c8t0 (List.replicate 15 3)).doc.inventory.water = 1 ∧
    (runAnswers c8t0 (List.replicate 16 3)).doc.inventory.water = 1 ∧
    (runAnswers c8t0 (List.replicate 14 3 ++ [1] ++ List.replicate 15 3)
      ).doc.inventory.water = 1 ∧
    (runAnswers c8t0 (List.replicate 14 3 ++ [1] ++ List.replicate 15 3)
      ).current_streak = 15 := by
  refine ⟨?_, ?_, by decide, by decide, by decide, by decide⟩
  · intro h
    simp only [handle_answer, if_pos h, Tracker.reset]
  · intro h
    have hne : ¬ease ≤ 1 := by omega
    simp only [handle_answer, if_neg hne, maybe_award_for_streak,
      award_token_coins, award_token_water, award_token_plants,
      award_token_trees]
    split_ifs <;> simp_all <;> omega

/-- Witness for C8 at concrete inputs: an ease-1 answer resets the fresh
tracker, and an ease-3 answer awards one coin. -/
theorem C8_streak_thresholds_witness :
    handle_answer c8t0 1 =
      { c8t0 with current_streak := 0, awarded_multiples := [] } ∧
    (handle_answer c8t0 3).doc.inventory.coins =
      c8t0.doc.inventory.coins + 1 := by
  constructor
  · exact (C8_streak_thresholds c8t0 1).1 (by decide)
  · exact ((C8_streak_thresholds c8t0 3).2.1 (by decide)).2.2.2.1

/-! ### C10: water_all -/

lemma get_water (inv : Inventory) : inv.get "water" = inv.water := rfl

lemma setKey_water (inv : Inventory) (v : Int) :
    inv.setKey "water" v = { inv with water := v } := rfl

lemma spend_token_water (s : Doc) :
    spend_token s "water" 1 =
      if s.inventory.water < 1 then (s, false)
      else ({ s with inventory := { s.inventory with water := s.inventory.water - 1 } },
        true) := by
  unfold spend_token
  rw [if_neg (by decide : ¬("water" : String) ∉ INVENTORY_KEYS)]
  rw [get_water, setKey_water]

/-- C10: `water_all` fails leaving the document exactly unchanged when no
non-empty non-dead tile exists or when the water balance is zero; on success
it debits exactly one water in total (all other inventory, and the path
list, untouched), stamps `last_watered_at = now` on every non-empty tile
whose status is not dead, and leaves every dead tile's record (timestamps
included) unchanged. -/
theorem C10_water_all_correct (s : Doc) (now : Int)
    (hw : 0 ≤ s.inventory.water) :
    ((∀ t ∈ s.tiles, t = none ∨ (tile_status t now).is_dead = true) →
      water_all s now = (s, false)) ∧
    (s.inventory.water = 0 → water_all s now = (s, false)) ∧
    (∀ s', water_all s now = (s', true) →
      s'.inventory = { s.inventory with water := s.inventory.water - 1 } ∧
      s'.paths = s.paths ∧
      s'.tiles.length = s.tiles.length ∧
      ∀ j : Nat,
        (s.tiles.get? j = some none → s'.tiles.get? j = some none) ∧
        (∀ tl : Tile, s.tiles.get? j = some (some tl) →
          ((tile_status (some tl) now).is_dead = true →
            s'.tiles.get? j = some (some tl)) ∧
          ((tile_status (some tl) now).is_dead = false →
            s'.tiles.get? j =
              some (some { tl with last_watered_at := some now })))) := by
  refine ⟨?_, ?_, ?_⟩
  · intro hno
    unfold water_all
    rw [if_pos]
    simp only [Bool.not_eq_true, List.any_eq_false]
    intro t ht
    rcases hno t ht with h | h
    · simp [h]
    · simp [h]
  · intro h0
    unfold water_all
    by_cases hl : s.tiles.any
        (fun t => t.isSome ∧ ¬(tile_status t now).is_dead) = true
    · rw [if_neg (not_not_intro hl)]
      rw [spend_token_water]
      rw [if_pos (show s.inventory.water < 1 by omega)]
      simp
    · rw [if_pos hl]
  · intro s' hs'
    unfold water_all at hs'
    by_cases hl : s.tiles.any
        (fun t => t.isSome ∧ ¬(tile_status t now).is_dead) = true
    swap
    · rw [if_pos hl] at hs'
      simp at hs'
    · rw [if_neg (not_not_intro hl), spend_token_water] at hs'
      by_cases hw1 : s.inventory.water < 1
      · rw [if_pos hw1] at hs'
        simp at hs'
      · rw [if_neg hw1] at hs'
        rw [if_neg (by simp)] at hs'
        rw [Prod.mk.injEq] at hs'
        obtain ⟨h, -⟩ := hs'
        subst h
        refine ⟨rfl, rfl, by simp, ?_⟩
        intro j
        constructor
        · intro hj
          simp only [List.get?_eq_getElem?, List.getElem?_map] at hj ⊢
          rw [show s.tiles[j]? = some none from by
            simpa [List.get?_eq_getElem?] using hj]
          rfl
        · intro tl hj
          simp only [List.get?_eq_getElem?, List.getElem?_map] at hj ⊢
          rw [show s.tiles[j]? = some (some tl) from by
            simpa [List.get?_eq_getElem?] using hj]
          constructor
          · intro hd
            simp [hd]
          · intro hd
            simp [hd]

/-- A living plant tile for the C10 witness. -/
def c10tile : Tile :=
  { id := 7, kind := "plant", planted_at := some 0, last_watered_at := some 0,
    bloom_until := none, color := none, evolution_stage := none,
    row := 0, col := 0, is_reference := false }

/-- A document with one living plant but an empty water balance. -/
def c10doc : Doc := { inventory := zeroInv, tiles := [some c10tile], paths := [] }

/-- Witness for C10 at a concrete input: with a living tile but zero water,
`water_all` fails and returns the document unchanged. -/
theorem C10_water_all_correct_witness :
    water_all c10doc 0 = (c10doc, false) :=
  (C10_water_all_correct c10doc 0 (by decide)).2.1 (by decide)

/-! ### C5: placement -/

lemma inv_key_plant : inv_key_for "plant" = some "plants" := rfl

lemma inv_key_tree : inv_key_for "tree" = some "trees" := rfl

lemma inv_key_seed : inv_key_for "seed" = some "seeds" := rfl

lemma footprint_any_iff (tiles : List (Option Tile)) (row col : Int) :
    (((footprintCells row col).any fun p =>
        match row_col_to_index p.1 p.2 with
        | none => true
        | some ci => (tileAt tiles ci).isSome) = true) ↔
      ∃ p ∈ footprintCells row col,
        row_col_to_index p.1 p.2 = none ∨
        ∃ ci, row_col_to_index p.1 p.2 = some ci ∧
          (tileAt tiles ci).isSome = true := by
  rw [List.any_eq_true]
  constructor
  · rintro ⟨p, hp, hm⟩
    refine ⟨p, hp, ?_⟩
    rcases hrc : row_col_to_index p.1 p.2 with _ | ci
    · exact Or.inl rfl
    · right
      refine ⟨ci, rfl, ?_⟩
      rw [hrc] at hm
      exact hm
  · rintro ⟨p, hp, hm | ⟨ci, hci, hocc⟩⟩
    · exact ⟨p, hp, by rw [hm]⟩
    · exact ⟨p, hp, by rw [hci]; exact hocc⟩

/-- C5: `place_at_index` fails (returning `none` and leaving the document
unchanged) exactly when the kind is invalid, the index is out of range, the
target cell is occupied (for a tree: some footprint cell is out of bounds or
occupied), or the matching inventory count is zero; on success it debits the
matching inventory kind by exactly one and stores a fresh tile whose
`planted_at` and `last_watered_at` are both `now` — in particular a tree
placement never partially commits. -/
theorem C5_place_at_index_correct (s : Doc) (kind : String) (idx now : Int)
    (freshId : Nat)
    (hp : 0 ≤ s.inventory.plants) (ht : 0 ≤ s.inventory.trees)
    (hsd : 0 ≤ s.inventory.seeds) :
    ((place_at_index s kind idx now freshId).2 = none ↔
      ((kind ≠ "plant" ∧ kind ≠ "tree" ∧ kind ≠ "seed") ∨
       idx < 0 ∨ idx ≥ (s.tiles.length : Int) ∨
       (kind = "tree" ∧
         ∃ p ∈ footprintCells (index_to_row_col idx).1 (index_to_row_col idx).2,
           row_col_to_index p.1 p.2 = none ∨
           ∃ ci, row_col_to_index p.1 p.2 = some ci ∧
             (tileAt s.tiles ci).isSome = true) ∨
       (kind ≠ "tree" ∧ (tileAt s.tiles idx).isSome = true) ∨
       (∃ key, inv_key_for kind = some key ∧ s.inventory.get key = 0))) ∧
    ((place_at_index s kind idx now freshId).2 = none →
      (place_at_index s kind idx now freshId).1 = s) ∧
    (∀ t, (place_at_index s kind idx now freshId).2 = some t →
      ∃ key, inv_key_for kind = some key ∧
        (place_at_index s kind idx now freshId).1 =
          { s with
              tiles := setTileAt s.tiles idx (some t),
              inventory := s.inventory.setKey key (s.inventory.get key - 1) } ∧
        t = create_tile kind (index_to_row_col idx).1 (index_to_row_col idx).2
              now freshId ∧
        t.planted_at = some now ∧ t.last_watered_at = some now) := by
  refine ⟨?_, ?_, ?_⟩
  · by_cases hk : kind ≠ "plant" ∧ kind ≠ "tree" ∧ kind ≠ "seed"
    · simp only [place_at_index, if_pos hk]
      exact ⟨fun _ => Or.inl hk, fun _ => trivial⟩
    · by_cases hr : idx < 0 ∨ idx ≥ (s.tiles.length : Int)
      · simp only [place_at_index, if_neg hk, if_pos hr]
        exact ⟨fun _ => by tauto, fun _ => trivial⟩
      · have hr0 : 0 ≤ idx := by omega
        have hr1 : idx < (s.tiles.length : Int) := by omega
        obtain ⟨hrow0, hcol0, hcol15, hsum⟩ := index_to_row_col_spec hr0
        simp only [place_at_index, if_neg hk, if_neg hr]
        by_cases hkt : kind = "tree"
        · rw [if_pos hkt]
          by_cases hbnd : (index_to_row_col idx).1 < 0 ∨
              (index_to_row_col idx).2 < 0 ∨
              (index_to_row_col idx).1 ≥ GARDEN_HEIGHT - 1 ∨
              (index_to_row_col idx).2 ≥ GARDEN_WIDTH - 1
          · rw [if_pos hbnd]
            simp only [if_pos rfl]
            constructor
            · intro _
              refine Or.inr (Or.inr (Or.inr (Or.inl ⟨hkt, ?_⟩)))
              simp only [GARDEN_HEIGHT, GARDEN_WIDTH] at hbnd
              rcases hbnd with h | h | h | h
              · omega
              · omega
              · exact ⟨((index_to_row_col idx).1 + 1, (index_to_row_col idx).2),
                  by simp [footprintCells],
                  Or.inl (row_col_to_index_none (by omega))⟩
              · exact ⟨((index_to_row_col idx).1, (index_to_row_col idx).2 + 1),
                  by simp [footprintCells],
                  Or.inl (row_col_to_index_none (by omega))⟩
            · intro _
              first
               | rfl
               | trivial
          · rw [if_neg hbnd]
            simp only [GARDEN_HEIGHT, GARDEN_WIDTH] at hbnd
            by_cases hany : (((footprintCells (index_to_row_col idx).1
                (index_to_row_col idx).2).any fun p =>
                  match row_col_to_index p.1 p.2 with
                  | none => true
                  | some ci => (tileAt s.tiles ci).isSome) = true)
            · rw [if_pos hany]
              constructor
              · intro _
                exact Or.inr (Or.inr (Or.inr (Or.inl ⟨hkt,
                  (footprint_any_iff s.tiles _ _).mp hany⟩)))
              · intro _
                first
                 | rfl
                 | trivial
            · rw [if_neg hany]
              simp only [hkt, inv_key_tree]
              by_cases hz : s.inventory.get "trees" ≤ 0
              · rw [if_pos hz]
                constructor
                · intro _
                  refine Or.inr (Or.inr (Or.inr (Or.inr (Or.inr
                    ⟨"trees", rfl, ?_⟩))))
                  have : s.inventory.get "trees" = s.inventory.trees := rfl
                  omega
                · intro _
                  rfl
              · rw [if_neg hz]
                simp only []
                constructor
                · intro h
                  exact absurd h (by simp)
                · intro hrhs
                  exfalso
                  rcases hrhs with h | h | h | ⟨-, hex⟩ | ⟨hne, -⟩ |
                      ⟨key, hkey, hkz⟩
                  · exact h.2.1 rfl
                  · omega
                  · omega
                  · exact hany ((footprint_any_iff s.tiles _ _).mpr hex)
                  · exact hne rfl
                  · have hke : "trees" = key := by injection hkey
                    subst hke
                    exact hz (le_of_eq hkz)
        · rw [if_neg hkt]
          by_cases hocc : (tileAt s.tiles idx).isSome = true
          · rw [if_pos hocc]
            simp only [if_pos rfl]
            exact ⟨fun _ => Or.inr (Or.inr (Or.inr (Or.inr (Or.inl
              ⟨hkt, hocc⟩)))), fun _ => trivial⟩
          · rw [if_neg hocc]
            have hkpv : kind = "plant" ∨ kind = "seed" := by tauto
            have hkey : ∃ key, inv_key_for kind = some key ∧
                s.inventory.get key = (if kind = "plant" then s.inventory.plants
                  else s.inventory.seeds) := by
              rcases hkpv with h | h <;> subst h
              · exact ⟨"plants", rfl, rfl⟩
              · exact ⟨"seeds", rfl, rfl⟩
            obtain ⟨key, hkeq, hkv⟩ := hkey
            simp only [hkeq]
            by_cases hz : s.inventory.get key ≤ 0
            · rw [if_pos hz]
              constructor
              · intro _
                refine Or.inr (Or.inr (Or.inr (Or.inr (Or.inr
                  ⟨key, rfl, ?_⟩))))
                rcases hkpv with h | h <;> rw [h] at hkv <;> simp at hkv <;>
                  omega
              · intro _
                rfl
            · rw [if_neg hz]
              simp only []
              constructor
              · intro h
                exact absurd h (by simp)
              · intro hrhs
                exfalso
                rcases hrhs with h | h | h | ⟨htr, -⟩ | ⟨-, hoc⟩ |
                    ⟨key', hkey', hkz⟩
                · exact hk h
                · omega
                · omega
                · exact hkt htr
                · exact hocc hoc
                · have hke : key = key' := by injection hkey'
                  subst hke
                  exact hz (le_of_eq hkz)
  · simp only [place_at_index]
    rcases hmk : inv_key_for kind with _ | key <;> simp only [hmk] <;>
      split_ifs <;> simp
  · intro t
    simp only [place_at_index]
    rcases hmk : inv_key_for kind with _ | key <;> simp only [hmk] <;>
      split_ifs <;>
      first
        | (intro h; exact Option.noConfusion h)
        | (intro h; exact h.elim)
        | (intro h
           injection h with h2
           subst h2
           exact ⟨key, rfl, rfl, rfl, rfl, rfl⟩)

/-- A document with one plant token and a two-cell tile array. -/
def c5doc : Doc :=
  { inventory := { water := 0, plants := 1, trees := 0, sunlight := 0,
                   coins := 0, seeds := 0, path := 0 },
    tiles := [none, none],
    paths := [] }

/-- Witness for C5 at a concrete input: placing at an out-of-range index
fails and leaves the document unchanged. -/
theorem C5_place_at_index_correct_witness :
    (place_at_index c5doc "plant" 5 0 11).1 = c5doc :=
  (C5_place_at_index_correct c5doc "plant" 5 0 11 (by decide) (by decide)
    (by decide)).2.1 (by decide)

/-! ### C6: failed moves -/

/-- The primary record of a concrete cherry blossom anchored at (0,1). -/
def c6main : Tile :=
  { id := 5, kind := "cherry_blossom", planted_at := some 0,
    last_watered_at := some 0, bloom_until := none, color := some "pink",
    evolution_stage := some "cherry_blossom", row := 0, col := 1,
    is_reference := false }

/-- A reference record of that cherry blossom at cell (r, c). -/
def c6ref (r c : Int) : Tile :=
  { c6main with row := r, col := c, is_reference := true }

/-- A plant blocking the destination footprint at cell (0,3). -/
def c6plant : Tile :=
  { id := 9, kind := "plant", planted_at := some 0, last_watered_at := some 0,
    bloom_until := none, color := none, evolution_stage := none,
    row := 0, col := 3, is_reference := false }

/-- A 15x7 document holding the cherry blossom (primary at index 1,
references at 2, 16, 17) and the blocking plant at index 3. -/
def c6doc : Doc :=
  { inventory := zeroInv,
    tiles := (((((List.replicate 105 none).set 1 (some c6main)).set 2
      (some (c6ref 0 2))).set 16 (some (c6ref 1 1))).set 17
      (some (c6ref 1 2))).set 3 (some c6plant),
    paths := [] }

/-- C6 failing input evaluated: moving the cherry blossom from index 1 to
index 3 fails (the destination footprint cell 3 is occupied by a different
tile), yet the returned document has lost the cherry blossom's reference
records — the failed move mutated the document, contradicting atomicity. -/
theorem C6_move_tile_failure_not_atomic :
    (move_tile c6doc 1 3).2 = false ∧
    tileAt c6doc.tiles 2 = some (c6ref 0 2) ∧
    tileAt (move_tile c6doc 1 3).1.tiles 2 = none ∧
    (move_tile c6doc 1 3).1 ≠ c6doc := by decide

/-! ### C9: grid resize on load -/

lemma replicate_get_lt {α : Type} (j n : Nat) (a : α) (h : j < n) :
    (List.replicate n a).get? j = some a := by
  rw [List.get?_eq_getElem?, List.getElem?_eq_getElem (by simpa using h)]
  simp

lemma foldl_set_length {ι : Type} (wr : ι → Nat) (val : ι → Option Tile) :
    ∀ (pairs : List ι) (acc : List (Option Tile)),
      (pairs.foldl (fun a i => a.set (wr i) (val i)) acc).length = acc.length := by
  intro pairs
  induction pairs with
  | nil => intro acc; rfl
  | cons p rest ih =>
    intro acc
    simp only [List.foldl_cons]
    rw [ih]
    simp

lemma foldl_set_get_untouched {ι : Type} (wr : ι → Nat) (val : ι → Option Tile) :
    ∀ (pairs : List ι) (acc : List (Option Tile)) (j : Nat),
      (∀ p ∈ pairs, wr p ≠ j) →
      (pairs.foldl (fun a i => a.set (wr i) (val i)) acc).get? j = acc.get? j := by
  intro pairs
  induction pairs with
  | nil => intro acc j _; rfl
  | cons p rest ih =>
    intro acc j hp
    simp only [List.foldl_cons]
    rw [ih _ _ (fun q hq => hp q (List.mem_cons_of_mem _ hq))]
    rw [List.get?_eq_getElem?, List.get?_eq_getElem?,
      List.getElem?_set_ne (hp p (List.mem_cons_self _ _))]

lemma foldl_set_get_written {ι : Type} (wr : ι → Nat) (val : ι → Option Tile) :
    ∀ (pairs : List ι) (acc : List (Option Tile)) (j : Nat) (v : Option Tile),
      (∃ p ∈ pairs, wr p = j) →
      (∀ p ∈ pairs, wr p = j → val p = v) →
      j < acc.length →
      (pairs.foldl (fun a i => a.set (wr i) (val i)) acc).get? j = some v := by
  intro pairs
  induction pairs with
  | nil =>
    rintro acc j v ⟨p, hp, -⟩ _ _
    cases hp
  | cons p rest ih =>
    rintro acc j v hex hval hj
    simp only [List.foldl_cons]
    by_cases hrest : ∃ q ∈ rest, wr q = j
    · exact ih _ _ _ hrest
        (fun q hq h => hval q (List.mem_cons_of_mem _ hq) h) (by simpa using hj)
    · have hpj : wr p = j := by
        rcases hex with ⟨q, hq, hqj⟩
        rcases List.mem_cons.mp hq with rfl | hq'
        · exact hqj
        · exact absurd ⟨q, hq', hqj⟩ hrest
      push_neg at hrest
      rw [foldl_set_get_untouched wr val rest _ j hrest]
      have hv : val p = v := hval p (List.mem_cons_self _ _) hpj
      subst hpj
      rw [List.get?_eq_getElem?, List.getElem?_set_eq_of_lt _ hj, hv]

lemma mem_overlapPairs {old_w old_h : Int} {p : Nat × Nat} :
    p ∈ overlapPairs old_w old_h ↔
      p.1 < (min old_h GARDEN_HEIGHT).toNat ∧
      p.2 < (min old_w GARDEN_WIDTH).toNat := by
  cases p with
  | mk r c =>
    unfold overlapPairs
    simp only [List.mem_flatMap, List.mem_map, List.mem_range, Prod.mk.injEq]
    constructor
    · rintro ⟨r', hr', c', hc', rfl, rfl⟩
      exact ⟨hr', hc'⟩
    · rintro ⟨hr, hc⟩
      exact ⟨r, hr, c, hc, rfl, rfl⟩

lemma c9_guard_elim (old_w : Int) (tiles : List (Option Tile)) :
    ∀ (pairs : List (Nat × Nat)) (acc : List (Option Tile)),
      (∀ p ∈ pairs,
        0 ≤ (p.1 : Int) * old_w + (p.2 : Int) ∧
        ((p.1 : Int) * old_w + (p.2 : Int)).toNat < tiles.length ∧
        p.1 * 15 + p.2 < acc.length) →
      (pairs.foldl (fun acc rc =>
        if 0 ≤ (rc.1 : Int) * old_w + (rc.2 : Int) ∧
            ((rc.1 : Int) * old_w + (rc.2 : Int)).toNat < tiles.length ∧
            rc.1 * 15 + rc.2 < acc.length then
          acc.set (rc.1 * 15 + rc.2)
            (tileAt tiles ((rc.1 : Int) * old_w + (rc.2 : Int)))
        else acc) acc) =
      (pairs.foldl (fun a rc =>
        a.set (rc.1 * 15 + rc.2)
          (tileAt tiles ((rc.1 : Int) * old_w + (rc.2 : Int)))) acc) := by
  intro pairs
  induction pairs with
  | nil => intro acc _; rfl
  | cons p rest ih =>
    intro acc hall
    simp only [List.foldl_cons]
    rw [if_pos (hall p (List.mem_cons_self _ _))]
    exact ih _ (fun q hq => by
      have := hall q (List.mem_cons_of_mem _ hq)
      simpa using this)

lemma c9fold_length (old_w : Int) (tiles : List (Option Tile)) :
    ∀ (pairs : List (Nat × Nat)) (acc : List (Option Tile)),
      (pairs.foldl (fun acc rc =>
        if 0 ≤ (rc.1 : Int) * old_w + (rc.2 : Int) ∧
            ((rc.1 : Int) * old_w + (rc.2 : Int)).toNat < tiles.length ∧
            rc.1 * 15 + rc.2 < acc.length then
          acc.set (rc.1 * 15 + rc.2)
            (tileAt tiles ((rc.1 : Int) * old_w + (rc.2 : Int)))
        else acc) acc).length = acc.length := by
  intro pairs
  induction pairs with
  | nil => intro acc; rfl
  | cons p rest ih =>
    intro acc
    simp only [List.foldl_cons]
    split_ifs with h
    · rw [ih]
      simp
    · exact ih acc

/-- C9: when the stored tile array length differs from 105, the rebuilt
array always has length 105; if the stored dimensions are positive and their
product matches the stored length, every cell of the overlapping top-left
region is preserved at its (row, col) position and every other cell is
empty; otherwise the entries are copied positionally as far as they fit and
all remaining cells are empty. -/
theorem C9_resize_preserves_overlap (old_w old_h : Int)
    (tiles : List (Option Tile)) (hne : tiles.length ≠ EXPECTED_LEN) :
    (ensure_tiles old_w old_h tiles).length = 105 ∧
    (old_w * old_h = (tiles.length : Int) ∧ 0 < old_w ∧ 0 < old_h →
      (∀ r c : Nat, r < (min old_h GARDEN_HEIGHT).toNat →
        c < (min old_w GARDEN_WIDTH).toNat →
        (ensure_tiles old_w old_h tiles).get? (r * 15 + c) =
          tiles.get? ((r : Int) * old_w + (c : Int)).toNat) ∧
      (∀ j : Nat, j < 105 →
        ¬(j / 15 < (min old_h GARDEN_HEIGHT).toNat ∧
          j % 15 < (min old_w GARDEN_WIDTH).toNat) →
        (ensure_tiles old_w old_h tiles).get? j = some none)) ∧
    (¬(old_w * old_h = (tiles.length : Int) ∧ 0 < old_w ∧ 0 < old_h) →
      ∀ j : Nat, j < 105 →
        (ensure_tiles old_w old_h tiles).get? j =
          if j < tiles.length then tiles.get? j else some none) := by
  have hEL : EXPECTED_LEN = 105 := rfl
  have hGW : GARDEN_WIDTH = 15 := rfl
  have hGH : GARDEN_HEIGHT = 7 := rfl
  have hcond_iff : ((max old_w 0) * (max old_h 0) = (tiles.length : Int) ∧
      0 < old_w ∧ 0 < old_h) ↔
      (old_w * old_h = (tiles.length : Int) ∧ 0 < old_w ∧ 0 < old_h) := by
    constructor
    · rintro ⟨h1, h2, h3⟩
      rw [max_eq_left h2.le, max_eq_left h3.le] at h1
      exact ⟨h1, h2, h3⟩
    · rintro ⟨h1, h2, h3⟩
      rw [max_eq_left h2.le, max_eq_left h3.le]
      exact ⟨h1, h2, h3⟩
  by_cases hcond : old_w * old_h = (tiles.length : Int) ∧ 0 < old_w ∧ 0 < old_h
  · -- overlap branch
    obtain ⟨hprod, hw, hh⟩ := hcond
    have hguards : ∀ p ∈ overlapPairs old_w old_h,
        0 ≤ (p.1 : Int) * old_w + (p.2 : Int) ∧
        ((p.1 : Int) * old_w + (p.2 : Int)).toNat < tiles.length ∧
        p.1 * 15 + p.2 < (List.replicate EXPECTED_LEN
          (none : Option Tile)).length := by
      intro p hp
      obtain ⟨hr, hc⟩ := mem_overlapPairs.mp hp
      have h0 : 0 ≤ (p.1 : Int) * old_w + (p.2 : Int) :=
        add_nonneg (mul_nonneg (by positivity) hw.le) (by positivity)
      have hrh : (p.1 : Int) ≤ old_h - 1 := by omega
      have hcw : (p.2 : Int) < old_w := by omega
      have hlt : (p.1 : Int) * old_w + (p.2 : Int) < (tiles.length : Int) := by
        have h1 : (p.1 : Int) * old_w ≤ (old_h - 1) * old_w :=
          mul_le_mul_of_nonneg_right hrh hw.le
        have h2 : (old_h - 1) * old_w + old_w = old_w * old_h := by ring
        linarith [h1, h2, hprod, hcw]
      have htn : ((p.1 : Int) * old_w + (p.2 : Int)).toNat < tiles.length := by
        generalize hq : (p.1 : Int) * old_w + (p.2 : Int) = q at h0 hlt
        omega
      refine ⟨h0, htn, ?_⟩
      simp only [List.length_replicate]
      omega
    have hens : ensure_tiles old_w old_h tiles =
        (overlapPairs old_w old_h).foldl (fun a rc =>
          a.set (rc.1 * 15 + rc.2)
            (tileAt tiles ((rc.1 : Int) * old_w + (rc.2 : Int))))
          (List.replicate EXPECTED_LEN none) := by
      unfold ensure_tiles
      rw [if_neg hne, if_pos (hcond_iff.mpr ⟨hprod, hw, hh⟩)]
      exact c9_guard_elim old_w tiles _ _ hguards
    refine ⟨?_, ?_, ?_⟩
    · rw [hens, foldl_set_length]
      simp [EXPECTED_LEN]
    · intro _
      constructor
      · intro r c hr hc
        rw [hens]
        have hrc_mem : ((r, c) : Nat × Nat) ∈ overlapPairs old_w old_h :=
          mem_overlapPairs.mpr ⟨hr, hc⟩
        obtain ⟨hg0, hg1, -⟩ := hguards (r, c) hrc_mem
        obtain ⟨x, hx⟩ : ∃ x, tiles.get? ((r : Int) * old_w + (c : Int)).toNat
            = some x := by
          rw [List.get?_eq_getElem?]
          exact ⟨_, List.getElem?_eq_getElem hg1⟩
        rw [foldl_set_get_written _ _ _ _ _ (tileAt tiles
            ((r : Int) * old_w + (c : Int)))
          ⟨(r, c), hrc_mem, rfl⟩ ?_ ?_]
        · rw [hx]
          unfold tileAt
          rw [if_pos hg0, hx]
          rfl
        · rintro ⟨r', c'⟩ hp' heq
          obtain ⟨hr'', hc''⟩ := mem_overlapPairs.mp hp'
          have : r' = r ∧ c' = c := by omega
          obtain ⟨rfl, rfl⟩ := this
          rfl
        · simp only [List.length_replicate]
          omega
      · intro j hj hout
        rw [hens]
        rw [foldl_set_get_untouched]
        · exact replicate_get_lt _ _ _ (by omega)
        · rintro ⟨r', c'⟩ hp' heq
          obtain ⟨hr'', hc''⟩ := mem_overlapPairs.mp hp'
          exact hout (by omega)
    · intro hno
      exact absurd ⟨hprod, hw, hh⟩ hno
  · -- fallback branch
    have hens : ensure_tiles old_w old_h tiles =
        (List.range (min tiles.length EXPECTED_LEN)).foldl
          (fun a i => a.set i ((tiles.get? i).getD none))
          (List.replicate EXPECTED_LEN none) := by
      unfold ensure_tiles
      rw [if_neg hne, if_neg (fun h => hcond (hcond_iff.mp h))]
    refine ⟨?_, fun h => absurd h hcond, ?_⟩
    · rw [hens, foldl_set_length]
      simp [EXPECTED_LEN]
    · intro _ j hj
      rw [hens]
      by_cases hjc : j < min tiles.length EXPECTED_LEN
      · rw [foldl_set_get_written _ _ _ _ _ ((tiles.get? j).getD none)
          ⟨j, List.mem_range.mpr hjc, rfl⟩
          (fun i _ hij => by rw [hij])
          (by simp only [List.length_replicate]; omega)]
        have hjlen : j < tiles.length := by omega
        rw [if_pos hjlen]
        obtain ⟨x, hx⟩ : ∃ x, tiles[j]? = some x :=
          ⟨_, List.getElem?_eq_getElem hjlen⟩
        rw [List.get?_eq_getElem?, hx]
        rfl
      · rw [foldl_set_get_untouched _ _ _ _ _
          (fun i hi => by
            have := List.mem_range.mp hi
            omega)]
        have hjlen : ¬j < tiles.length := by omega
        rw [if_neg hjlen]
        exact replicate_get_lt _ _ _ (by omega)

/-- A distinctive plant stored at index 3 of an old 2x2 grid. -/
def c9tile : Tile :=
  { id := 3, kind := "plant", planted_at := some 0, last_watered_at := some 0,
    bloom_until := none, color := none, evolution_stage := none,
    row := 1, col := 1, is_reference := false }

/-- The stored 2x2 tile array being migrated to the 15x7 grid. -/
def c9old : List (Option Tile) := [none, none, none, some c9tile]

/-- Witness for C9 at a concrete input: resizing a stored 2x2 grid keeps the
tile that was at old cell (1,1) at new flat index 1*15+1 = 16, and the new
array has 105 cells. -/
theorem C9_resize_preserves_overlap_witness :
    (ensure_tiles 2 2 c9old).length = 105 ∧
    (ensure_tiles 2 2 c9old).get? 16 = some (some c9tile) := by
  have H := C9_resize_preserves_overlap 2 2 c9old (by decide)
  refine ⟨H.1, ?_⟩
  have h2 := (H.2.1 (by simp [c9old])).1 1 1 (by decide) (by decide)
  norm_num at h2
  rw [List.get?_eq_getElem?, h2]
  rfl

/-! ### Shared machinery for the 2x2 claims (C2, C3, C4) -/

lemma tileAt_some_nonneg {tiles : List (Option Tile)} {idx : Int} {t : Tile}
    (h : tileAt tiles idx = some t) : 0 ≤ idx := by
  by_contra hneg
  rw [tileAt_neg tiles (by omega)] at h
  cases h

lemma tileAt_some_lt {tiles : List (Option Tile)} {idx : Int} {t : Tile}
    (h : tileAt tiles idx = some t) : idx < (tiles.length : Int) := by
  have h0 := tileAt_some_nonneg h
  by_contra hge
  unfold tileAt at h
  rw [if_pos h0] at h
  have : tiles.get? idx.toNat = none := by
    rw [List.get?_eq_getElem?, List.getElem?_eq_none]
    omega
  rw [this] at h
  cases h

lemma clearRefs_length (tiles : List (Option Tile)) (mid : Nat) :
    (clearRefsWithId tiles mid).length = tiles.length := by
  unfold clearRefsWithId
  simp

lemma clearRefs_tileAt (tiles : List (Option Tile)) (mid : Nat) (j : Int) :
    tileAt (clearRefsWithId tiles mid) j =
      match tileAt tiles j with
      | some tl => if tl.id = mid ∧ tl.is_reference then none else some tl
      | none => none := by
  unfold clearRefsWithId tileAt
  by_cases h0 : 0 ≤ j
  · rw [if_pos h0, if_pos h0]
    rw [List.get?_eq_getElem?, List.get?_eq_getElem?, List.getElem?_map]
    rcases hj : tiles[j.toNat]? with _ | x
    · rfl
    · rcases x with _ | tl
      · rfl
      · rfl
  · rw [if_neg h0, if_neg h0]

lemma footprint_rc (idx : Int) (h0 : 0 ≤ idx)
    (hrow : (index_to_row_col idx).1 < GARDEN_HEIGHT - 1)
    (hcol : (index_to_row_col idx).2 < GARDEN_WIDTH - 1) :
    row_col_to_index (index_to_row_col idx).1 (index_to_row_col idx).2 =
      some idx ∧
    row_col_to_index (index_to_row_col idx).1 ((index_to_row_col idx).2 + 1) =
      some (idx + 1) ∧
    row_col_to_index ((index_to_row_col idx).1 + 1) (index_to_row_col idx).2 =
      some (idx + 15) ∧
    row_col_to_index ((index_to_row_col idx).1 + 1)
      ((index_to_row_col idx).2 + 1) = some (idx + 16) := by
  obtain ⟨h1, h2, h3, h4⟩ := index_to_row_col_spec h0
  have hGH : GARDEN_HEIGHT = 7 := rfl
  have hGW : GARDEN_WIDTH = 15 := rfl
  refine ⟨?_, ?_, ?_, ?_⟩ <;>
    · rw [row_col_to_index_some (by omega) (by omega) (by omega) (by omega)]
      exact congrArg some (by omega)

/-- The updated primary record written by the colorful_plant to
cherry_blossom evolution. -/
def cherryPrimary (tile : Tile) (now : Int) : Tile :=
  { tile with
      kind := "cherry_blossom"
      evolution_stage := some "cherry_blossom"
      planted_at := some now }

lemma evolve_colorful_success (s : Doc) (idx now : Int) (ch : Nat)
    (tile : Tile) (pa lw : Int) (color : String)
    (htile : tileAt s.tiles idx = some tile)
    (hkind : tile.kind = "colorful_plant")
    (hstage : tile.evolution_stage = some "colorful_plant")
    (hpa : tile.planted_at = some pa)
    (hlw : tile.last_watered_at = some lw)
    (hcolor : tile.color = some color)
    (htime1 : now - lw ≤ 2 * dayLen)
    (htime2 : now - pa ≥ 7 * dayLen)
    (hrow : (index_to_row_col idx).1 < GARDEN_HEIGHT - 1)
    (hcol : (index_to_row_col idx).2 < GARDEN_WIDTH - 1)
    (hf1 : tileAt s.tiles (idx + 1) = none)
    (hf2 : tileAt s.tiles (idx + 15) = none)
    (hf3 : tileAt s.tiles (idx + 16) = none) :
    evolve_tile_if_needed s idx now ch =
      ({ s with tiles :=
          (setTileAt
            (setTileAt
              (setTileAt
                (setTileAt s.tiles idx (some (cherryPrimary tile now)))
                (idx + 1)
                (some (mkEvoRef (cherryPrimary tile now) color
                  (index_to_row_col idx).1 ((index_to_row_col idx).2 + 1))))
              (idx + 15)
              (some (mkEvoRef (cherryPrimary tile now) color
                ((index_to_row_col idx).1 + 1) (index_to_row_col idx).2)))
            (idx + 16)
            (some (mkEvoRef (cherryPrimary tile now) color
              ((index_to_row_col idx).1 + 1) ((index_to_row_col idx).2 + 1)))) },
        true) := by
  have h0 : 0 ≤ idx := tileAt_some_nonneg htile
  obtain ⟨e1, e2, e3, e4⟩ := footprint_rc idx h0 hrow hcol
  obtain ⟨hs1, hs2, hs3, hs4⟩ := index_to_row_col_spec h0
  have hGH : GARDEN_HEIGHT = 7 := rfl
  have hGW : GARDEN_WIDTH = 15 := rfl
  have hx1 : idx + 1 ≠ idx := by omega
  have hx15 : idx + 15 ≠ idx := by omega
  have hx16 : idx + 16 ≠ idx := by omega
  have hany : ((footprintCells (index_to_row_col idx).1
      (index_to_row_col idx).2).any fun p =>
        match row_col_to_index p.1 p.2 with
        | none => true
        | some ci => ci ≠ idx ∧ (tileAt s.tiles ci).isSome) = false := by
    simp only [footprintCells, List.any_cons, List.any_nil, e1, e2, e3, e4,
      hf1, hf2, hf3]
    simp
  simp only [evolve_tile_if_needed, htile, hkind, hstage, hpa, hlw, hcolor]
  rw [if_neg (by omega : ¬now - lw > 2 * dayLen)]
  rw [if_neg (by simp :
    ¬(("colorful_plant" : String) = "seed" ∧
      (some "colorful_plant" : Option String) = some "seed" ∧
      now - pa ≥ 7 * dayLen))]
  rw [if_pos (⟨trivial, trivial, by omega⟩ :
    True ∧ True ∧ now - pa ≥ 7 * dayLen)]
  rw [if_neg (by omega :
    ¬((index_to_row_col idx).1 < 0 ∨ (index_to_row_col idx).2 < 0 ∨
      (index_to_row_col idx).1 ≥ GARDEN_HEIGHT - 1 ∨
      (index_to_row_col idx).2 ≥ GARDEN_WIDTH - 1))]
  rw [if_neg (by rw [hany]; simp)]
  simp only [footprintCells, List.foldl_cons, List.foldl_nil, e1, e2, e3, e4,
    hx1, hx15, hx16]
  simp [cherryPrimary, mkEvoRef, hlw, hcolor, hpa]

lemma evolve_seed_success (s : Doc) (idx now : Int) (ch : Nat)
    (tile : Tile) (pa lw : Int)
    (htile : tileAt s.tiles idx = some tile)
    (hkind : tile.kind = "seed")
    (hstage : tile.evolution_stage = some "seed" ∨ tile.evolution_stage = none)
    (hpa : tile.planted_at = some pa)
    (hlw : tile.last_watered_at = some lw)
    (htime1 : now - lw ≤ 2 * dayLen)
    (htime2 : now - pa ≥ 7 * dayLen) :
    evolve_tile_if_needed s idx now ch =
      ({ s with tiles := setTileAt s.tiles idx (some { tile with
          kind := "colorful_plant"
          evolution_stage := some "colorful_plant"
          color := some (COLORFUL_PLANT_COLORS.getD
            (ch % COLORFUL_PLANT_COLORS.length) "")
          planted_at := some now }) }, true) := by
  rcases hstage with hst | hst <;>
    · simp only [evolve_tile_if_needed, htile, hkind, hst, hpa, hlw, if_true]
      rw [if_neg (by omega : ¬now - lw > 2 * dayLen)]
      rw [if_pos (⟨trivial, trivial, by omega⟩ :
        True ∧ True ∧ now - pa ≥ 7 * dayLen)]

lemma evolve_colorful_oob (s : Doc) (idx now : Int) (ch : Nat)
    (tile : Tile) (pa lw : Int) (color : String)
    (htile : tileAt s.tiles idx = some tile)
    (hkind : tile.kind = "colorful_plant")
    (hstage : tile.evolution_stage = some "colorful_plant")
    (hpa : tile.planted_at = some pa)
    (hlw : tile.last_watered_at = some lw)
    (hcolor : tile.color = some color)
    (htime1 : now - lw ≤ 2 * dayLen)
    (htime2 : now - pa ≥ 7 * dayLen)
    (hoob : (index_to_row_col idx).1 ≥ GARDEN_HEIGHT - 1 ∨
      (index_to_row_col idx).2 ≥ GARDEN_WIDTH - 1) :
    evolve_tile_if_needed s idx now ch = (s, false) := by
  simp only [evolve_tile_if_needed, htile, hkind, hstage, hpa, hlw, hcolor]
  rw [if_neg (by omega : ¬now - lw > 2 * dayLen)]
  rw [if_neg (by simp :
    ¬(("colorful_plant" : String) = "seed" ∧
      (some "colorful_plant" : Option String) = some "seed" ∧
      now - pa ≥ 7 * dayLen))]
  rw [if_pos (⟨trivial, trivial, by omega⟩ :
    True ∧ True ∧ now - pa ≥ 7 * dayLen)]
  rw [if_pos (by tauto :
    (index_to_row_col idx).1 < 0 ∨ (index_to_row_col idx).2 < 0 ∨
      (index_to_row_col idx).1 ≥ GARDEN_HEIGHT - 1 ∨
      (index_to_row_col idx).2 ≥ GARDEN_WIDTH - 1)]

lemma evolve_colorful_occupied (s : Doc) (idx now : Int) (ch : Nat)
    (tile : Tile) (pa lw : Int) (color : String)
    (htile : tileAt s.tiles idx = some tile)
    (hkind : tile.kind = "colorful_plant")
    (hstage : tile.evolution_stage = some "colorful_plant")
    (hpa : tile.planted_at = some pa)
    (hlw : tile.last_watered_at = some lw)
    (hcolor : tile.color = some color)
    (htime1 : now - lw ≤ 2 * dayLen)
    (htime2 : now - pa ≥ 7 * dayLen)
    (hrow : (index_to_row_col idx).1 < GARDEN_HEIGHT - 1)
    (hcol : (index_to_row_col idx).2 < GARDEN_WIDTH - 1)
    (hocc : (tileAt s.tiles (idx + 1)).isSome = true ∨
      (tileAt s.tiles (idx + 15)).isSome = true ∨
      (tileAt s.tiles (idx + 16)).isSome = true) :
    evolve_tile_if_needed s idx now ch = (s, false) := by
  have h0 : 0 ≤ idx := tileAt_some_nonneg htile
  obtain ⟨e1, e2, e3, e4⟩ := footprint_rc idx h0 hrow hcol
  obtain ⟨hs1, hs2, hs3, hs4⟩ := index_to_row_col_spec h0
  have hx1 : idx + 1 ≠ idx := by omega
  have hx15 : idx + 15 ≠ idx := by omega
  have hx16 : idx + 16 ≠ idx := by omega
  have hany : ((footprintCells (index_to_row_col idx).1
      (index_to_row_col idx).2).any fun p =>
        match row_col_to_index p.1 p.2 with
        | none => true
        | some ci => ci ≠ idx ∧ (tileAt s.tiles ci).isSome) = true := by
    simp only [footprintCells, List.any_cons, List.any_nil, e1, e2, e3, e4]
    rcases hocc with h | h | h
    · simp [h, hx1]
    · simp [h, hx15]
    · simp [h, hx16]
  simp only [evolve_tile_if_needed, htile, hkind, hstage, hpa, hlw, hcolor]
  rw [if_neg (by omega : ¬now - lw > 2 * dayLen)]
  rw [if_neg (by simp :
    ¬(("colorful_plant" : String) = "seed" ∧
      (some "colorful_plant" : Option String) = some "seed" ∧
      now - pa ≥ 7 * dayLen))]
  rw [if_pos (⟨trivial, trivial, by omega⟩ :
    True ∧ True ∧ now - pa ≥ 7 * dayLen)]
  rw [if_neg (by omega :
    ¬((index_to_row_col idx).1 < 0 ∨ (index_to_row_col idx).2 < 0 ∨
      (index_to_row_col idx).1 ≥ GARDEN_HEIGHT - 1 ∨
      (index_to_row_col idx).2 ≥ GARDEN_WIDTH - 1))]
  rw [if_pos hany]

lemma evolve_true_watered (s : Doc) (idx now : Int) (ch : Nat)
    (h : (evolve_tile_if_needed s idx now ch).2 = true) :
    ∃ tile, ∃ pa lw : Int, tileAt s.tiles idx = some tile ∧
      tile.planted_at = some pa ∧ tile.last_watered_at = some lw ∧
      now - lw ≤ 2 * dayLen := by
  unfold evolve_tile_if_needed at h
  rcases htl : tileAt s.tiles idx with _ | tile
  · rw [htl] at h
    cases h
  · rw [htl] at h
    rcases hpa : tile.planted_at with _ | pa <;>
      rcases hlw : tile.last_watered_at with _ | lw <;>
      simp only [hpa, hlw] at h
    · cases h
    · cases h
    · cases h
    · by_cases hw : now - lw > 2 * dayLen
      · rw [if_pos hw] at h
        cases h
      · exact ⟨tile, pa, lw, rfl, hpa, hlw, by omega⟩

/-- C3: a tile evolves only when `now - last_watered_at <= 2` days (with
parseable timestamps); a seed aged at least 7 days becomes a colorful_plant
whose color comes from the fixed 8-color palette, with `planted_at` reset to
`now` and `last_watered_at` unchanged (inventory and paths untouched); a
colorful_plant aged at least 7 days with a free in-bounds 2x2 footprint
becomes a 2x2 cherry_blossom carrying its color, `planted_at` reset, with
reference records on the other three footprint cells; and when the footprint
is out of bounds or occupied the check returns with the document completely
unchanged. -/
theorem C3_evolution_correct (s : Doc) (idx now : Int) (ch : Nat) :
    ((evolve_tile_if_needed s idx now ch).2 = true →
      ∃ tile, ∃ pa lw : Int, tileAt s.tiles idx = some tile ∧
        tile.planted_at = some pa ∧ tile.last_watered_at = some lw ∧
        now - lw ≤ 2 * dayLen) ∧
    (∀ tile : Tile, ∀ pa lw : Int,
      tileAt s.tiles idx = some tile → tile.kind = "seed" →
      (tile.evolution_stage = some "seed" ∨ tile.evolution_stage = none) →
      tile.planted_at = some pa → tile.last_watered_at = some lw →
      now - lw ≤ 2 * dayLen → now - pa ≥ 7 * dayLen →
      (evolve_tile_if_needed s idx now ch).2 = true ∧
      (evolve_tile_if_needed s idx now ch).1.inventory = s.inventory ∧
      (evolve_tile_if_needed s idx now ch).1.paths = s.paths ∧
      ∃ t' : Tile,
        tileAt (evolve_tile_if_needed s idx now ch).1.tiles idx = some t' ∧
        t'.kind = "colorful_plant" ∧
        (∃ c, t'.color = some c ∧ c ∈ COLORFUL_PLANT_COLORS) ∧
        t'.planted_at = some now ∧
        t'.last_watered_at = tile.last_watered_at) ∧
    (∀ tile : Tile, ∀ pa lw : Int, ∀ color : String,
      s.tiles.length = 105 →
      tileAt s.tiles idx = some tile → tile.kind = "colorful_plant" →
      tile.evolution_stage = some "colorful_plant" →
      tile.planted_at = some pa → tile.last_watered_at = some lw →
      tile.color = some color →
      now - lw ≤ 2 * dayLen → now - pa ≥ 7 * dayLen →
      (index_to_row_col idx).1 < GARDEN_HEIGHT - 1 →
      (index_to_row_col idx).2 < GARDEN_WIDTH - 1 →
      tileAt s.tiles (idx + 1) = none →
      tileAt s.tiles (idx + 15) = none →
      tileAt s.tiles (idx + 16) = none →
      (evolve_tile_if_needed s idx now ch).2 = true ∧
      tileAt (evolve_tile_if_needed s idx now ch).1.tiles idx =
        some (cherryPrimary tile now) ∧
      (cherryPrimary tile now).kind = "cherry_blossom" ∧
      (cherryPrimary tile now).color = tile.color ∧
      (cherryPrimary tile now).planted_at = some now ∧
      (cherryPrimary tile now).last_watered_at = tile.last_watered_at ∧
      tileAt (evolve_tile_if_needed s idx now ch).1.tiles (idx + 1) =
        some (mkEvoRef (cherryPrimary tile now) color
          (index_to_row_col idx).1 ((index_to_row_col idx).2 + 1)) ∧
      tileAt (evolve_tile_if_needed s idx now ch).1.tiles (idx + 15) =
        some (mkEvoRef (cherryPrimary tile now) color
          ((index_to_row_col idx).1 + 1) (index_to_row_col idx).2) ∧
      tileAt (evolve_tile_if_needed s idx now ch).1.tiles (idx + 16) =
        some (mkEvoRef (cherryPrimary tile now) color
          ((index_to_row_col idx).1 + 1) ((index_to_row_col idx).2 + 1))) ∧
    (∀ tile : Tile, ∀ pa lw : Int, ∀ color : String,
      tileAt s.tiles idx = some tile → tile.kind = "colorful_plant" →
      tile.evolution_stage = some "colorful_plant" →
      tile.planted_at = some pa → tile.last_watered_at = some lw →
      tile.color = some color →
      now - lw ≤ 2 * dayLen → now - pa ≥ 7 * dayLen →
      ((index_to_row_col idx).1 ≥ GARDEN_HEIGHT - 1 ∨
       (index_to_row_col idx).2 ≥ GARDEN_WIDTH - 1 ∨
       (tileAt s.tiles (idx + 1)).isSome = true ∨
       (tileAt s.tiles (idx + 15)).isSome = true ∨
       (tileAt s.tiles (idx + 16)).isSome = true) →
      evolve_tile_if_needed s idx now ch = (s, false)) := by
  refine ⟨evolve_true_watered s idx now ch, ?_, ?_, ?_⟩
  · intro tile pa lw htile hkind hstage hpa hlw ht1 ht2
    rw [evolve_seed_success s idx now ch tile pa lw htile hkind hstage hpa hlw
      ht1 ht2]
    refine ⟨rfl, rfl, rfl, ?_⟩
    refine ⟨_, tileAt_setTileAt_self s.tiles (tileAt_some_nonneg htile)
      (tileAt_some_lt htile) _, rfl, ?_, rfl, rfl⟩
    refine ⟨COLORFUL_PLANT_COLORS.getD (ch % COLORFUL_PLANT_COLORS.length) "",
      rfl, ?_⟩
    have hm : ch % COLORFUL_PLANT_COLORS.length < COLORFUL_PLANT_COLORS.length :=
      Nat.mod_lt _ (by simp [COLORFUL_PLANT_COLORS])
    rw [List.getD_eq_getElem?_getD, List.getElem?_eq_getElem hm]
    exact List.getElem_mem _
  · intro tile pa lw color hlen htile hkind hstage hpa hlw hcolor ht1 ht2
      hrow hcol hf1 hf2 hf3
    have h0 : 0 ≤ idx := tileAt_some_nonneg htile
    obtain ⟨hs1, hs2, hs3, hs4⟩ := index_to_row_col_spec h0
    have hGH : GARDEN_HEIGHT = 7 := rfl
    have hGW : GARDEN_WIDTH = 15 := rfl
    have hidx88 : idx ≤ 88 := by omega
    rw [evolve_colorful_success s idx now ch tile pa lw color htile hkind
      hstage hpa hlw hcolor ht1 ht2 hrow hcol hf1 hf2 hf3]
    refine ⟨rfl, ?_, rfl, rfl, rfl, rfl, ?_, ?_, ?_⟩
    · rw [tileAt_setTileAt_ne _ (by omega) _, tileAt_setTileAt_ne _ (by omega) _,
        tileAt_setTileAt_ne _ (by omega) _,
        tileAt_setTileAt_self _ h0 (by omega) _]
    · rw [tileAt_setTileAt_ne _ (by omega) _, tileAt_setTileAt_ne _ (by omega) _,
        tileAt_setTileAt_self _ (by omega) (by rw [setTileAt_length]; omega) _]
    · rw [tileAt_setTileAt_ne _ (by omega) _,
        tileAt_setTileAt_self _ (by omega)
          (by rw [setTileAt_length, setTileAt_length]; omega) _]
    · rw [tileAt_setTileAt_self _ (by omega)
        (by rw [setTileAt_length, setTileAt_length, setTileAt_length]; omega) _]
  · intro tile pa lw color htile hkind hstage hpa hlw hcolor ht1 ht2 hdef
    by_cases hr : (index_to_row_col idx).1 ≥ GARDEN_HEIGHT - 1
    · exact evolve_colorful_oob s idx now ch tile pa lw color htile hkind
        hstage hpa hlw hcolor ht1 ht2 (Or.inl hr)
    · by_cases hc : (index_to_row_col idx).2 ≥ GARDEN_WIDTH - 1
      · exact evolve_colorful_oob s idx now ch tile pa lw color htile hkind
          hstage hpa hlw hcolor ht1 ht2 (Or.inr hc)
      · have hocc : (tileAt s.tiles (idx + 1)).isSome = true ∨
            (tileAt s.tiles (idx + 15)).isSome = true ∨
            (tileAt s.tiles (idx + 16)).isSome = true := by tauto
        exact evolve_colorful_occupied s idx now ch tile pa lw color htile
          hkind hstage hpa hlw hcolor ht1 ht2 (by omega) (by omega) hocc

/-- A week-old seed watered one hour ago. -/
def c3seed : Tile :=
  { id := 21, kind := "seed", planted_at := some 0,
    last_watered_at := some (7 * 86400 - 3600), bloom_until := none,
    color := none, evolution_stage := some "seed", row := 0, col := 0,
    is_reference := false }

/-- A document holding only the week-old seed. -/
def c3doc : Doc := { inventory := zeroInv, tiles := [some c3seed], paths := [] }

/-- Witness for C3 at a concrete input: the week-old, recently watered seed
evolves. -/
theorem C3_evolution_correct_witness :
    (evolve_tile_if_needed c3doc 0 (7 * 86400) 0).2 = true :=
  ((C3_evolution_correct c3doc 0 (7 * 86400) 0).2.1 c3seed 0 (7 * 86400 - 3600)
    (by decide) (by decide) (Or.inl (by decide)) (by decide) (by decide)
    (by decide) (by decide)).1

/-! ### C4: watering machinery -/

lemma tileAt_eq_get? (tiles : List (Option Tile)) (a : Int) (h0 : 0 ≤ a)
    (t : Tile) :
    tileAt tiles a = some t ↔ tiles.get? a.toNat = some (some t) := by
  unfold tileAt
  rw [if_pos h0]
  rcases hg : tiles.get? a.toNat with _ | x
  · simp
  · rcases x with _ | tl <;> simp

lemma find_main_eq_some_spec (tiles : List (Option Tile)) (mid : Nat)
    (j : Int) (t : Tile) (h : find_main_by_id tiles mid = some (j, t)) :
    0 ≤ j ∧ tiles.get? j.toNat = some (some t) ∧ t.id = mid ∧
      t.is_reference = false := by
  unfold find_main_by_id at h
  obtain ⟨p, hmem, hp⟩ := List.exists_of_findSome?_eq_some h
  rcases p with ⟨i, x⟩
  rcases x with _ | tl
  · cases hp
  · dsimp at hp
    split_ifs at hp with hc
    · have hpair : ((i : Int), tl) = (j, t) := by injection hp
      have hji : (i : Int) = j := congrArg Prod.fst hpair
      have htl : tl = t := congrArg Prod.snd hpair
      subst htl
      have hget : tiles.get? i = some (some tl) := by
        rw [List.get?_eq_getElem?]
        exact List.mem_enum_iff_getElem?.mp hmem
      refine ⟨by omega, ?_, hc.1, by simpa using hc.2⟩
      rw [← hji]
      simpa using hget

lemma find_main_isSome_of (tiles : List (Option Tile)) (mid : Nat) (a : Nat)
    (t : Tile) (ht : tiles.get? a = some (some t)) (hid : t.id = mid)
    (hnr : t.is_reference = false) : (find_main_by_id tiles mid).isSome := by
  unfold find_main_by_id
  rw [List.findSome?_isSome_iff]
  refine ⟨(a, some t), ?_, ?_⟩
  · exact List.mem_enum_iff_getElem?.mpr
      (by rw [← List.get?_eq_getElem?]; exact ht)
  · dsimp
    rw [if_pos ⟨hid, by simp [hnr]⟩]
    simp

lemma find_main_unique (tiles : List (Option Tile)) (mid : Nat) (a : Int)
    (t : Tile) (h0 : 0 ≤ a)
    (ht : tileAt tiles a = some t) (hid : t.id = mid)
    (hnr : t.is_reference = false)
    (huniq : ∀ (j : Int) (t' : Tile), tileAt tiles j = some t' →
      t'.id = mid → t'.is_reference = false → j = a ∧ t' = t) :
    find_main_by_id tiles mid = some (a, t) := by
  have hsome := find_main_isSome_of tiles mid a.toNat t
    ((tileAt_eq_get? tiles a h0 t).mp ht) hid hnr
  obtain ⟨⟨j, t'⟩, hj⟩ := Option.isSome_iff_exists.mp hsome
  obtain ⟨hj0, hjget, hjid, hjnr⟩ := find_main_eq_some_spec tiles mid j t' hj
  have := huniq j t' ((tileAt_eq_get? tiles j hj0 t').mpr hjget) hjid hjnr
  rw [hj, this.1, this.2]

lemma isMain_of_ref {tiles : List (Option Tile)} {j : Int} {tr : Tile}
    (h : tileAt tiles j = some tr) (hr : tr.is_reference = true) :
    isMainTreeLike (tileAt tiles j) = false := by
  rw [h]
  unfold isMainTreeLike
  simp [hr]

lemma isMain_of_main {tiles : List (Option Tile)} {j : Int} {t : Tile}
    (h : tileAt tiles j = some t)
    (hk : t.kind = "tree" ∨ t.kind = "cherry_blossom")
    (hnr : t.is_reference = false) :
    isMainTreeLike (tileAt tiles j) = true := by
  rw [h]
  unfold isMainTreeLike
  rcases hk with hk | hk <;> simp [hk, hnr]

lemma find_tree_click_anchor (tiles : List (Option Tile)) (a : Int) (t : Tile)
    (h0 : 0 ≤ a)
    (hrb : (index_to_row_col a).1 < GARDEN_HEIGHT - 1)
    (hcb : (index_to_row_col a).2 < GARDEN_WIDTH - 1)
    (ht : tileAt tiles a = some t)
    (hk : t.kind = "tree" ∨ t.kind = "cherry_blossom")
    (hnr : t.is_reference = false) :
    find_tree_at_tile tiles (index_to_row_col a).1 (index_to_row_col a).2 =
      some a := by
  obtain ⟨e1, -, -, -⟩ := footprint_rc a h0 hrb hcb
  unfold find_tree_at_tile
  simp only [e1, isMain_of_main ht hk hnr, if_true]

lemma find_tree_click_right (tiles : List (Option Tile)) (a : Int) (t : Tile)
    (h0 : 0 ≤ a)
    (hrb : (index_to_row_col a).1 < GARDEN_HEIGHT - 1)
    (hcb : (index_to_row_col a).2 < GARDEN_WIDTH - 1)
    (ht : tileAt tiles a = some t)
    (hk : t.kind = "tree" ∨ t.kind = "cherry_blossom")
    (hnr : t.is_reference = false)
    (hm1 : isMainTreeLike (tileAt tiles (a + 1)) = false) :
    find_tree_at_tile tiles (index_to_row_col a).1
      ((index_to_row_col a).2 + 1) = some a := by
  obtain ⟨e1, e2, e3, e4⟩ := footprint_rc a h0 hrb hcb
  have hc1 : (index_to_row_col a).2 + 1 - 1 = (index_to_row_col a).2 := by
    omega
  unfold find_tree_at_tile
  simp only [e2, hm1, Bool.false_eq_true, if_false, List.findSome?_cons, hc1,
    e1, isMain_of_main ht hk hnr, if_true]
  rw [if_pos (⟨by omega, by omega, by omega, by omega⟩ :
    (index_to_row_col a).1 ≤ (index_to_row_col a).1 ∧
    (index_to_row_col a).1 < (index_to_row_col a).1 + 2 ∧
    (index_to_row_col a).2 ≤ (index_to_row_col a).2 + 1 ∧
    (index_to_row_col a).2 + 1 < (index_to_row_col a).2 + 2)]

lemma find_tree_click_down (tiles : List (Option Tile)) (a : Int) (t : Tile)
    (h0 : 0 ≤ a)
    (hrb : (index_to_row_col a).1 < GARDEN_HEIGHT - 1)
    (hcb : (index_to_row_col a).2 < GARDEN_WIDTH - 1)
    (ht : tileAt tiles a = some t)
    (hk : t.kind = "tree" ∨ t.kind = "cherry_blossom")
    (hnr : t.is_reference = false)
    (hm15 : isMainTreeLike (tileAt tiles (a + 15)) = false)
    (hm14 : (index_to_row_col a).2 = 0 ∨
      isMainTreeLike (tileAt tiles (a + 14)) = false) :
    find_tree_at_tile tiles ((index_to_row_col a).1 + 1)
      (index_to_row_col a).2 = some a := by
  obtain ⟨e1, e2, e3, e4⟩ := footprint_rc a h0 hrb hcb
  obtain ⟨hs1, hs2, hs3, hs4⟩ := index_to_row_col_spec h0
  have hGH : GARDEN_HEIGHT = 7 := rfl
  have hGW : GARDEN_WIDTH = 15 := rfl
  have hr1 : (index_to_row_col a).1 + 1 - 1 = (index_to_row_col a).1 := by
    omega
  have hcov : (index_to_row_col a).1 ≤ (index_to_row_col a).1 + 1 ∧
      (index_to_row_col a).1 + 1 < (index_to_row_col a).1 + 2 ∧
      (index_to_row_col a).2 ≤ (index_to_row_col a).2 ∧
      (index_to_row_col a).2 < (index_to_row_col a).2 + 2 :=
    ⟨by omega, by omega, by omega, by omega⟩
  unfold find_tree_at_tile
  simp only [e3, hm15, Bool.false_eq_true, if_false, List.findSome?_cons, hr1]
  by_cases hc0 : (index_to_row_col a).2 = 0
  · rw [row_col_to_index_none (by omega)]
    simp only [e1, isMain_of_main ht hk hnr, if_true]
    rw [if_pos hcov]
  · have hm14' : isMainTreeLike (tileAt tiles (a + 14)) = false := by
      rcases hm14 with h | h
      · exact absurd h hc0
      · exact h
    have e14 : row_col_to_index ((index_to_row_col a).1 + 1)
        ((index_to_row_col a).2 - 1) = some (a + 14) := by
      rw [row_col_to_index_some (by omega) (by omega) (by omega) (by omega)]
      exact congrArg some (by omega)
    rw [e14]
    simp only [hm14', Bool.false_eq_true, if_false, List.findSome?_cons, e1,
      isMain_of_main ht hk hnr, if_true]
    rw [if_pos hcov]

lemma find_tree_click_diag (tiles : List (Option Tile)) (a : Int) (t : Tile)
    (h0 : 0 ≤ a)
    (hrb : (index_to_row_col a).1 < GARDEN_HEIGHT - 1)
    (hcb : (index_to_row_col a).2 < GARDEN_WIDTH - 1)
    (ht : tileAt tiles a = some t)
    (hk : t.kind = "tree" ∨ t.kind = "cherry_blossom")
    (hnr : t.is_reference = false)
    (hm1 : isMainTreeLike (tileAt tiles (a + 1)) = false)
    (hm15 : isMainTreeLike (tileAt tiles (a + 15)) = false)
    (hm16 : isMainTreeLike (tileAt tiles (a + 16)) = false) :
    find_tree_at_tile tiles ((index_to_row_col a).1 + 1)
      ((index_to_row_col a).2 + 1) = some a := by
  obtain ⟨e1, e2, e3, e4⟩ := footprint_rc a h0 hrb hcb
  obtain ⟨hs1, hs2, hs3, hs4⟩ := index_to_row_col_spec h0
  have hr1 : (index_to_row_col a).1 + 1 - 1 = (index_to_row_col a).1 := by
    omega
  have hc1 : (index_to_row_col a).2 + 1 - 1 = (index_to_row_col a).2 := by
    omega
  have hcov : (index_to_row_col a).1 ≤ (index_to_row_col a).1 + 1 ∧
      (index_to_row_col a).1 + 1 < (index_to_row_col a).1 + 2 ∧
      (index_to_row_col a).2 ≤ (index_to_row_col a).2 + 1 ∧
      (index_to_row_col a).2 + 1 < (index_to_row_col a).2 + 2 :=
    ⟨by omega, by omega, by omega, by omega⟩
  unfold find_tree_at_tile
  simp only [e4, hm16, Bool.false_eq_true, if_false, List.findSome?_cons, hr1,
    hc1, e3, hm15, e2, hm1, e1, isMain_of_main ht hk hnr, if_true]
  rw [if_pos hcov]

lemma water_tile_snd_or (s : Doc) (row col now : Int) :
    (water_tile s row col now).2 = true ∨
    water_tile s row col now = (s, false) := by
  simp only [water_tile]
  repeat' split
  all_goals first | exact Or.inr rfl | exact Or.inl rfl | simp

lemma water_tile_fail_unchanged (s : Doc) (row col now : Int)
    (h : (water_tile s row col now).2 = false) :
    (water_tile s row col now).1 = s := by
  rcases water_tile_snd_or s row col now with h1 | h1
  · rw [h1] at h
    cases h
  · rw [h1]

lemma water_tile_empty_fails (s : Doc) (row col now idx : Int)
    (hrc : row_col_to_index row col = some idx)
    (ht : tileAt s.tiles idx = none) :
    water_tile s row col now = (s, false) := by
  unfold water_tile
  simp only [hrc, ht]
  split_ifs <;> rfl

lemma water_tile_dead_fails (s : Doc) (row col now idx : Int)
    (hrc : row_col_to_index row col = some idx)
    (hlt : idx < (s.tiles.length : Int))
    (t : Tile) (ht : tileAt s.tiles idx = some t)
    (hnr : t.is_reference = false)
    (hdead : (tile_status (some t) now).is_dead = true) :
    water_tile s row col now = (s, false) := by
  unfold water_tile
  simp only [hrc, ht]
  rw [if_neg (by omega : ¬idx ≥ (s.tiles.length : Int))]
  rw [if_neg (by simp [hnr] : ¬t.is_reference = true)]
  rw [if_pos hdead]

lemma water_tile_single_success (s : Doc) (row col now idx : Int)
    (hrc : row_col_to_index row col = some idx)
    (hlt : idx < (s.tiles.length : Int))
    (t : Tile) (ht : tileAt s.tiles idx = some t)
    (hnr : t.is_reference = false)
    (hks : ¬(t.kind = "tree" ∨ t.kind = "cherry_blossom"))
    (hnd : (tile_status (some t) now).is_dead = false)
    (hw : 1 ≤ s.inventory.water) :
    water_tile s row col now =
      ({ s with
          tiles := setTileAt s.tiles idx
            (some { t with last_watered_at := some now })
          inventory := { s.inventory with
            water := s.inventory.water - 1 } }, true) := by
  unfold water_tile
  simp only [hrc, ht]
  rw [if_neg (by omega : ¬idx ≥ (s.tiles.length : Int))]
  rw [if_neg (by simp [hnr] : ¬t.is_reference = true)]
  rw [if_neg (by simp [hnd] : ¬(tile_status (some t) now).is_dead = true)]
  rw [if_neg hks, if_neg hks]
  rw [get_water, setKey_water]
  dsimp only
  rw [if_neg (by omega : ¬s.inventory.water < 1)]

lemma water_tile_treelike_success_direct (s : Doc) (row col now a : Int)
    (hrc : row_col_to_index row col = some a)
    (hlt : a < (s.tiles.length : Int))
    (t : Tile) (ht : tileAt s.tiles a = some t)
    (hnr : t.is_reference = false)
    (hk : t.kind = "tree" ∨ t.kind = "cherry_blossom")
    (hnd : (tile_status (some t) now).is_dead = false)
    (hfind : find_tree_at_tile s.tiles row col = some a)
    (hw : 4 ≤ s.inventory.water) :
    water_tile s row col now =
      ({ s with
          tiles := setTileAt s.tiles a
            (some { t with last_watered_at := some now })
          inventory := { s.inventory with
            water := s.inventory.water - 4 } }, true) := by
  unfold water_tile
  simp only [hrc, ht]
  rw [if_neg (by omega : ¬a ≥ (s.tiles.length : Int))]
  rw [if_neg (by simp [hnr] : ¬t.is_reference = true)]
  rw [if_neg (by simp [hnd] : ¬(tile_status (some t) now).is_dead = true)]
  rw [if_pos hk, if_pos hk, hfind]
  simp only [ht]
  rw [get_water, setKey_water]
  rw [if_neg (by omega : ¬s.inventory.water < 4)]

lemma water_tile_treelike_success_ref (s : Doc) (row col now iclick a : Int)
    (hrc : row_col_to_index row col = some iclick)
    (hlt : iclick < (s.tiles.length : Int))
    (tr : Tile) (hclick : tileAt s.tiles iclick = some tr)
    (href : tr.is_reference = true)
    (t : Tile) (h0a : 0 ≤ a) (ht : tileAt s.tiles a = some t)
    (hid : tr.id = t.id)
    (hnr : t.is_reference = false)
    (hk : t.kind = "tree" ∨ t.kind = "cherry_blossom")
    (hnd : (tile_status (some t) now).is_dead = false)
    (huniq : ∀ (j : Int) (t' : Tile), tileAt s.tiles j = some t' →
      t'.id = t.id → t'.is_reference = false → j = a ∧ t' = t)
    (hfind : find_tree_at_tile s.tiles row col = some a)
    (hw : 4 ≤ s.inventory.water) :
    water_tile s row col now =
      ({ s with
          tiles := setTileAt s.tiles a
            (some { t with last_watered_at := some now })
          inventory := { s.inventory with
            water := s.inventory.water - 4 } }, true) := by
  have hmain : find_main_by_id s.tiles tr.id = some (a, t) := by
    rw [hid]
    exact find_main_unique s.tiles t.id a t h0a ht rfl hnr huniq
  unfold water_tile
  simp only [hrc, hclick]
  rw [if_neg (by omega : ¬iclick ≥ (s.tiles.length : Int))]
  rw [if_pos href, hmain]
  rw [if_neg (by simp [hnd] : ¬(tile_status (some t) now).is_dead = true)]
  rw [if_pos hk, if_pos hk, hfind]
  simp only [ht]
  rw [get_water, setKey_water]
  rw [if_neg (by omega : ¬s.inventory.water < 4)]

/-- A freshly planted tree anchored at cell (0,0). -/
def c4tree : Tile :=
  { id := 30, kind := "tree", planted_at := some 0, last_watered_at := some 0,
    bloom_until := none, color := none, evolution_stage := none,
    row := 0, col := 0, is_reference := false }

/-- A 15x7 document holding only the tree (single record at index 0; the
code never creates reference records for trees) and 4 water. -/
def c4doc : Doc :=
  { inventory := { water := 4, plants := 0, trees := 0, sunlight := 0,
                   coins := 0, seeds := 0, path := 0 },
    tiles := (List.replicate 105 none).set 0 (some c4tree),
    paths := [] }

/-- C4 counterexample: cell (0,1) lies inside the tree's 2x2 footprint and
the water balance (4) covers the cost, yet `water_tile(0, 1)` fails — the
cell holds no record because trees are stored as a single record at the
anchor, so watering a tree does not succeed "from any of the 4 occupied
cells" as the claim states. -/
theorem C4_water_tile_counterexample :
    tileAt c4doc.tiles 0 = some c4tree ∧ c4tree.kind = "tree" ∧
    tileAt c4doc.tiles 1 = none ∧
    4 ≤ c4doc.inventory.water ∧
    water_tile c4doc 0 1 0 = (c4doc, false) := by decide

/-- C4 (amended): every failing `water_tile` call leaves the document
unchanged; clicking a cell that holds no record — in particular any
non-anchor cell of a tree's footprint — fails; watering a dead (non
reference) tile fails; a single-cell tile waters for exactly 1 water;
a tree waters only via its anchor record for exactly 4 water; and a cherry
blossom (primary plus three reference records, ids unique to it, no foreign
tree/cherry primary at the cell left of its lower row) waters successfully
from any of its 4 footprint cells, debiting exactly 4 water and stamping
`last_watered_at = now` on the primary record only. -/
theorem C4_watering_correct :
    (∀ (s : Doc) (row col now : Int),
      (water_tile s row col now).2 = false →
      (water_tile s row col now).1 = s) ∧
    (∀ (s : Doc) (row col now idx : Int),
      row_col_to_index row col = some idx →
      tileAt s.tiles idx = none →
      water_tile s row col now = (s, false)) ∧
    (∀ (s : Doc) (row col now idx : Int) (t : Tile),
      row_col_to_index row col = some idx →
      idx < (s.tiles.length : Int) →
      tileAt s.tiles idx = some t →
      t.is_reference = false →
      (tile_status (some t) now).is_dead = true →
      water_tile s row col now = (s, false)) ∧
    (∀ (s : Doc) (row col now idx : Int) (t : Tile),
      row_col_to_index row col = some idx →
      idx < (s.tiles.length : Int) →
      tileAt s.tiles idx = some t →
      t.is_reference = false →
      ¬(t.kind = "tree" ∨ t.kind = "cherry_blossom") →
      (tile_status (some t) now).is_dead = false →
      1 ≤ s.inventory.water →
      water_tile s row col now =
        ({ s with
            tiles := setTileAt s.tiles idx
              (some { t with last_watered_at := some now })
            inventory := { s.inventory with
              water := s.inventory.water - 1 } }, true)) ∧
    (∀ (s : Doc) (now a : Int) (t : Tile),
      a < (s.tiles.length : Int) →
      (index_to_row_col a).1 < GARDEN_HEIGHT - 1 →
      (index_to_row_col a).2 < GARDEN_WIDTH - 1 →
      tileAt s.tiles a = some t →
      t.is_reference = false →
      t.kind = "tree" →
      (tile_status (some t) now).is_dead = false →
      4 ≤ s.inventory.water →
      water_tile s (index_to_row_col a).1 (index_to_row_col a).2 now =
        ({ s with
            tiles := setTileAt s.tiles a
              (some { t with last_watered_at := some now })
            inventory := { s.inventory with
              water := s.inventory.water - 4 } }, true)) ∧
    (∀ (s : Doc) (now a : Int) (t tr1 tr15 tr16 : Tile),
      s.tiles.length = 105 →
      (index_to_row_col a).1 < GARDEN_HEIGHT - 1 →
      (index_to_row_col a).2 < GARDEN_WIDTH - 1 →
      tileAt s.tiles a = some t →
      t.is_reference = false →
      t.kind = "cherry_blossom" →
      tileAt s.tiles (a + 1) = some tr1 → tr1.is_reference = true →
      tr1.id = t.id →
      tileAt s.tiles (a + 15) = some tr15 → tr15.is_reference = true →
      tr15.id = t.id →
      tileAt s.tiles (a + 16) = some tr16 → tr16.is_reference = true →
      tr16.id = t.id →
      (∀ (j : Int) (t' : Tile), tileAt s.tiles j = some t' →
        t'.id = t.id → t'.is_reference = false → j = a ∧ t' = t) →
      ((index_to_row_col a).2 = 0 ∨
        isMainTreeLike (tileAt s.tiles (a + 14)) = false) →
      (tile_status (some t) now).is_dead = false →
      4 ≤ s.inventory.water →
      (water_tile s (index_to_row_col a).1 (index_to_row_col a).2 now =
        ({ s with
            tiles := setTileAt s.tiles a
              (some { t with last_watered_at := some now })
            inventory := { s.inventory with
              water := s.inventory.water - 4 } }, true) ∧
       water_tile s (index_to_row_col a).1 ((index_to_row_col a).2 + 1) now =
        ({ s with
            tiles := setTileAt s.tiles a
              (some { t with last_watered_at := some now })
            inventory := { s.inventory with
              water := s.inventory.water - 4 } }, true) ∧
       water_tile s ((index_to_row_col a).1 + 1) (index_to_row_col a).2 now =
        ({ s with
            tiles := setTileAt s.tiles a
              (some { t with last_watered_at := some now })
            inventory := { s.inventory with
              water := s.inventory.water - 4 } }, true) ∧
       water_tile s ((index_to_row_col a).1 + 1) ((index_to_row_col a).2 + 1)
          now =
        ({ s with
            tiles := setTileAt s.tiles a
              (some { t with last_watered_at := some now })
            inventory := { s.inventory with
              water := s.inventory.water - 4 } }, true))) := by
  refine ⟨water_tile_fail_unchanged, ?_, ?_, ?_, ?_, ?_⟩
  · intro s row col now idx hrc ht
    exact water_tile_empty_fails s row col now idx hrc ht
  · intro s row col now idx t hrc hlt ht hnr hd
    exact water_tile_dead_fails s row col now idx hrc hlt t ht hnr hd
  · intro s row col now idx t hrc hlt ht hnr hks hnd hw
    exact water_tile_single_success s row col now idx hrc hlt t ht hnr hks
      hnd hw
  · intro s now a t hlt hrb hcb ht hnr hk hnd hw
    have h0 : 0 ≤ a := tileAt_some_nonneg ht
    obtain ⟨e1, -, -, -⟩ := footprint_rc a h0 hrb hcb
    exact water_tile_treelike_success_direct s _ _ now a e1 hlt t ht hnr
      (Or.inl hk) hnd
      (find_tree_click_anchor s.tiles a t h0 hrb hcb ht (Or.inl hk) hnr) hw
  · intro s now a t tr1 tr15 tr16 hlen hrb hcb ht hnr hk htr1 hr1 hid1 htr15
      hr15 hid15 htr16 hr16 hid16 huniq hside hnd hw
    have h0 : 0 ≤ a := tileAt_some_nonneg ht
    have hGH : GARDEN_HEIGHT = 7 := rfl
    have hGW : GARDEN_WIDTH = 15 := rfl
    obtain ⟨hs1, hs2, hs3, hs4⟩ := index_to_row_col_spec h0
    obtain ⟨e1, e2, e3, e4⟩ := footprint_rc a h0 hrb hcb
    have hltlen : a < (s.tiles.length : Int) := tileAt_some_lt ht
    have hm1 := isMain_of_ref htr1 hr1
    have hm15 := isMain_of_ref htr15 hr15
    have hm16 := isMain_of_ref htr16 hr16
    have hk' : t.kind = "tree" ∨ t.kind = "cherry_blossom" := Or.inr hk
    refine ⟨?_, ?_, ?_, ?_⟩
    · exact water_tile_treelike_success_direct s _ _ now a e1 hltlen t ht hnr
        hk' hnd (find_tree_click_anchor s.tiles a t h0 hrb hcb ht hk' hnr) hw
    · exact water_tile_treelike_success_ref s _ _ now (a + 1) a e2
        (by omega) tr1 htr1 hr1 t h0 ht hid1 hnr hk' hnd huniq
        (find_tree_click_right s.tiles a t h0 hrb hcb ht hk' hnr hm1) hw
    · exact water_tile_treelike_success_ref s _ _ now (a + 15) a e3
        (by omega) tr15 htr15 hr15 t h0 ht hid15 hnr hk' hnd huniq
        (find_tree_click_down s.tiles a t h0 hrb hcb ht hk' hnr hm15 hside) hw
    · exact water_tile_treelike_success_ref s _ _ now (a + 16) a e4
        (by omega) tr16 htr16 hr16 t h0 ht hid16 hnr hk' hnd huniq
        (find_tree_click_diag s.tiles a t h0 hrb hcb ht hk' hnr hm1 hm15
          hm16) hw

/-- Witness for C4 at a concrete input: watering the tree via its anchor
cell (0,0) succeeds and consumes all 4 water. -/
theorem C4_watering_correct_witness :
    (water_tile c4doc 0 0 0).2 = true ∧
    (water_tile c4doc 0 0 0).1.inventory.water = 0 := by
  have e : index_to_row_col 0 = (0, 0) := by decide
  have h := C4_watering_correct.2.2.2.2.1 c4doc 0 0 c4tree (by decide)
    (by decide) (by decide) (by decide) (by decide) (by decide) (by decide)
    (by decide)
  rw [e] at h
  dsimp only at h
  refine ⟨?_, ?_⟩ <;> rw [h] <;> decide

/-! ### C2 machinery: success shapes of placement and move -/

lemma place_success_shape (s : Doc) (kind : String) (idx now : Int)
    (fid : Nat) (s' : Doc) (t : Tile)
    (h : place_at_index s kind idx now fid = (s', some t)) :
    s'.tiles = setTileAt s.tiles idx (some t) ∧
    t = create_tile kind (index_to_row_col idx).1 (index_to_row_col idx).2
      now fid ∧
    0 ≤ idx ∧ idx < (s.tiles.length : Int) := by
  simp only [place_at_index] at h
  rcases hmk : inv_key_for kind with _ | key <;> simp only [hmk] at h <;>
    split_ifs at h <;>
    first
      | exact Option.noConfusion (congrArg Prod.snd h)
      | (rw [Prod.mk.injEq] at h
         obtain ⟨h5, h6⟩ := h
         have h7 : create_tile kind (index_to_row_col idx).1
             (index_to_row_col idx).2 now fid = t := by injection h6
         subst h7
         subst h5
         refine ⟨rfl, rfl, by omega, by omega⟩)

/-- The main record after `move_tile` succeeds: the tile with its `row`/`col`
updated to the destination cell (src/state.py lines 561-566). -/
def movedMain (tile : Tile) (to_idx : Int) : Tile :=
  { tile with
      row := (index_to_row_col to_idx).1
      col := (index_to_row_col to_idx).2 }

lemma move_tree_success_shape (s : Doc) (from_idx to_idx : Int) (s' : Doc)
    (tile : Tile)
    (ht : tileAt s.tiles from_idx = some tile)
    (hkind : tile.kind = "tree")
    (h : move_tile s from_idx to_idx = (s', true)) :
    s'.tiles = setTileAt (setTileAt s.tiles to_idx
      (some (movedMain tile to_idx))) from_idx none ∧
    0 ≤ from_idx ∧ from_idx < (s.tiles.length : Int) ∧
    0 ≤ to_idx ∧ to_idx < (s.tiles.length : Int) ∧ from_idx ≠ to_idx := by
  have hnc : tile.kind ≠ "cherry_blossom" := by rw [hkind]; decide
  simp only [move_tile, ht] at h
  rw [if_pos (Or.inl hkind : tile.kind = "tree" ∨
    tile.kind = "cherry_blossom")] at h
  rw [if_neg hnc, if_neg hnc] at h
  split_ifs at h <;>
    first
      | exact (Bool.false_ne_true (congrArg Prod.snd h)).elim
      | (rw [Prod.mk.injEq] at h
         obtain ⟨h5, -⟩ := h
         subst h5
         refine ⟨rfl, by omega, by omega, by omega, by omega, by omega⟩)

lemma move_cherry_success_shape (s : Doc) (from_idx to_idx : Int) (s' : Doc)
    (tile : Tile)
    (ht : tileAt s.tiles from_idx = some tile)
    (hkind : tile.kind = "cherry_blossom")
    (h : move_tile s from_idx to_idx = (s', true)) :
    (index_to_row_col to_idx).1 < GARDEN_HEIGHT - 1 ∧
    (index_to_row_col to_idx).2 < GARDEN_WIDTH - 1 ∧
    s'.tiles = setTileAt (setTileAt
      (setTileAt (setTileAt (setTileAt (clearRefsWithId s.tiles tile.id)
        (to_idx + 1) (some (mkMoveRef tile (index_to_row_col to_idx).1
          ((index_to_row_col to_idx).2 + 1))))
        (to_idx + 15) (some (mkMoveRef tile ((index_to_row_col to_idx).1 + 1)
          (index_to_row_col to_idx).2)))
        (to_idx + 16) (some (mkMoveRef tile ((index_to_row_col to_idx).1 + 1)
          ((index_to_row_col to_idx).2 + 1))))
      to_idx (some (movedMain tile to_idx))) from_idx none ∧
    0 ≤ from_idx ∧ from_idx < (s.tiles.length : Int) ∧
    0 ≤ to_idx ∧ to_idx < (s.tiles.length : Int) ∧ from_idx ≠ to_idx := by
  simp only [move_tile, ht] at h
  rw [if_pos (Or.inr hkind : tile.kind = "tree" ∨
    tile.kind = "cherry_blossom")] at h
  rw [if_pos hkind, if_pos hkind] at h
  split_ifs at h with h1 h2 h3
  · exact (Bool.false_ne_true (congrArg Prod.snd h)).elim
  · exact (Bool.false_ne_true (congrArg Prod.snd h)).elim
  · exact (Bool.false_ne_true (congrArg Prod.snd h)).elim
  · -- success branch: resolve the reference-recreation fold
    have h0to : 0 ≤ to_idx := by omega
    have hrb : (index_to_row_col to_idx).1 < GARDEN_HEIGHT - 1 := by omega
    have hcb : (index_to_row_col to_idx).2 < GARDEN_WIDTH - 1 := by omega
    obtain ⟨e1, e2, e3, e4⟩ := footprint_rc to_idx h0to hrb hcb
    simp only [footprintCells, List.foldl_cons, List.foldl_nil, e1, e2, e3,
      e4] at h
    rw [if_neg (not_not_intro rfl : ¬to_idx ≠ to_idx)] at h
    rw [if_pos (show to_idx + 1 ≠ to_idx by omega)] at h
    rw [if_pos (show to_idx + 15 ≠ to_idx by omega)] at h
    rw [if_pos (show to_idx + 16 ≠ to_idx by omega)] at h
    rw [Prod.mk.injEq] at h
    obtain ⟨h5, -⟩ := h
    subst h5
    exact ⟨hrb, hcb, rfl, by omega, by omega, by omega, by omega, by omega⟩

/-- Number of grid cells whose record carries `mid` as its tile id. -/
def countId (tiles : List (Option Tile)) (mid : Nat) : Nat :=
  tiles.countP fun t =>
    match t with
    | some tl => tl.id == mid
    | none => false

/-- An inventory holding exactly one tree token. -/
def c2pinv : Inventory := { zeroInv with trees := 1 }

/-- An empty 15x7 garden with one tree token in the inventory. -/
def c2pdoc : Doc :=
  { inventory := c2pinv, tiles := List.replicate 105 none, paths := [] }

/-- A cherry blossom primary record anchored at cell (0, 1) (index 1). -/
def c2cmain : Tile :=
  { id := 7, kind := "cherry_blossom", planted_at := some 0,
    last_watered_at := some 0, bloom_until := none, color := some "pink",
    evolution_stage := some "cherry_blossom", row := 0, col := 1,
    is_reference := false }

/-- A reference record of that cherry blossom at cell (r, c). -/
def c2cref (r c : Int) : Tile :=
  { c2cmain with row := r, col := c, is_reference := true }

/-- A 15x7 document holding only the cherry blossom: primary at index 1,
references at indices 2, 16, 17. -/
def c2cdoc : Doc :=
  { inventory := zeroInv,
    tiles := ((((List.replicate 105 none).set 1 (some c2cmain)).set 2
      (some (c2cref 0 2))).set 16 (some (c2cref 1 1))).set 17
      (some (c2cref 1 2)),
    paths := [] }

/-- C2 counterexample: (i) successfully placing a tree on an empty garden
creates exactly ONE record carrying the new tile's id — the source never
creates reference records for trees, so a placed tree does not occupy 4
cells with its id as the claim states; (ii) moving the cherry blossom from
index 1 to index 0 succeeds, but because the old primary cell (index 1)
lies inside the new footprint and `tiles[from_idx] = None` runs last, the
freshly written reference at index 1 is wiped: only 3 cells carry the id
and the footprint cell at index 1 is empty. -/
theorem C2_two_by_two_counterexample :
    ((place_at_index c2pdoc "tree" 0 0 42).2.isSome = true ∧
     countId (place_at_index c2pdoc "tree" 0 0 42).1.tiles 42 = 1) ∧
    ((move_tile c2cdoc 1 0).2 = true ∧
     countId (move_tile c2cdoc 1 0).1.tiles 7 = 3 ∧
     tileAt (move_tile c2cdoc 1 0).1.tiles 1 = none) := by decide

lemma c2_place_tree (s : Doc) (idx now : Int) (fid : Nat) (s' : Doc)
    (t : Tile)
    (h : place_at_index s "tree" idx now fid = (s', some t))
    (hu : ∀ j t', tileAt s.tiles j = some t' → t'.id ≠ fid) :
    t.id = fid ∧ t.is_reference = false ∧ t.kind = "tree" ∧
    tileAt s'.tiles idx = some t ∧
    ∀ j, j ≠ idx → ∀ t', tileAt s'.tiles j = some t' → t'.id ≠ fid := by
  obtain ⟨hs, htt, h0, h1⟩ := place_success_shape s "tree" idx now fid s' t h
  refine ⟨by subst htt; rfl, by subst htt; rfl, by subst htt; rfl, ?_, ?_⟩
  · rw [hs]
    exact tileAt_setTileAt_self s.tiles h0 h1 (some t)
  · intro j hj t' hjt
    rw [hs, tileAt_setTileAt_ne s.tiles (Ne.symm hj) (some t)] at hjt
    exact hu j t' hjt

lemma c2_move_tree (s : Doc) (from_idx to_idx : Int) (s' : Doc) (tile : Tile)
    (ht : tileAt s.tiles from_idx = some tile)
    (hkind : tile.kind = "tree")
    (h : move_tile s from_idx to_idx = (s', true))
    (hu : ∀ j, j ≠ from_idx → ∀ t', tileAt s.tiles j = some t' →
      t'.id ≠ tile.id) :
    tileAt s'.tiles to_idx = some (movedMain tile to_idx) ∧
    (movedMain tile to_idx).id = tile.id ∧
    (movedMain tile to_idx).is_reference = tile.is_reference ∧
    ∀ j, j ≠ to_idx → ∀ t', tileAt s'.tiles j = some t' → t'.id ≠ tile.id := by
  obtain ⟨hs, hf0, hf1, ht0, ht1, hne⟩ :=
    move_tree_success_shape s from_idx to_idx s' tile ht hkind h
  have hl1 : ((setTileAt s.tiles to_idx
      (some (movedMain tile to_idx))).length : Int) = (s.tiles.length : Int) := by
    rw [setTileAt_length]
  refine ⟨?_, rfl, rfl, ?_⟩
  · rw [hs, tileAt_setTileAt_ne _ hne _]
    exact tileAt_setTileAt_self s.tiles ht0 ht1 _
  · intro j hj t' hjt
    rw [hs] at hjt
    by_cases hjf : j = from_idx
    · subst hjf
      rw [tileAt_setTileAt_self _ hf0 (by rw [hl1]; exact hf1) none] at hjt
      exact Option.noConfusion hjt
    · rw [tileAt_setTileAt_ne _ (Ne.symm hjf) _,
        tileAt_setTileAt_ne _ (Ne.symm hj) _] at hjt
      exact hu j hjf t' hjt

lemma c2_evolve_cherry (s : Doc) (idx now : Int) (ch : Nat) (tile : Tile)
    (pa lw : Int) (color : String)
    (htile : tileAt s.tiles idx = some tile)
    (hkind : tile.kind = "colorful_plant")
    (hstage : tile.evolution_stage = some "colorful_plant")
    (hpa : tile.planted_at = some pa)
    (hlw : tile.last_watered_at = some lw)
    (hcolor : tile.color = some color)
    (htime1 : now - lw ≤ 2 * dayLen)
    (htime2 : now - pa ≥ 7 * dayLen)
    (hrow : (index_to_row_col idx).1 < GARDEN_HEIGHT - 1)
    (hcol : (index_to_row_col idx).2 < GARDEN_WIDTH - 1)
    (hf1 : tileAt s.tiles (idx + 1) = none)
    (hf2 : tileAt s.tiles (idx + 15) = none)
    (hf3 : tileAt s.tiles (idx + 16) = none)
    (hlen : s.tiles.length = EXPECTED_LEN)
    (hu : ∀ j, j ≠ idx → ∀ t', tileAt s.tiles j = some t' →
      t'.id ≠ tile.id) :
    tileAt (evolve_tile_if_needed s idx now ch).1.tiles idx =
      some (cherryPrimary tile now) ∧
    tileAt (evolve_tile_if_needed s idx now ch).1.tiles (idx + 1) =
      some (mkEvoRef (cherryPrimary tile now) color
        (index_to_row_col idx).1 ((index_to_row_col idx).2 + 1)) ∧
    tileAt (evolve_tile_if_needed s idx now ch).1.tiles (idx + 15) =
      some (mkEvoRef (cherryPrimary tile now) color
        ((index_to_row_col idx).1 + 1) (index_to_row_col idx).2) ∧
    tileAt (evolve_tile_if_needed s idx now ch).1.tiles (idx + 16) =
      some (mkEvoRef (cherryPrimary tile now) color
        ((index_to_row_col idx).1 + 1) ((index_to_row_col idx).2 + 1)) ∧
    ∀ j, j ≠ idx → j ≠ idx + 1 → j ≠ idx + 15 → j ≠ idx + 16 →
      ∀ t', tileAt (evolve_tile_if_needed s idx now ch).1.tiles j = some t' →
        t'.id ≠ tile.id := by
  have heq := evolve_colorful_success s idx now ch tile pa lw color htile
    hkind hstage hpa hlw hcolor htime1 htime2 hrow hcol hf1 hf2 hf3
  have h0 : 0 ≤ idx := tileAt_some_nonneg htile
  have hidxlt : idx < (s.tiles.length : Int) := tileAt_some_lt htile
  obtain ⟨hs1, hs2, hs3, hs4⟩ := index_to_row_col_spec h0
  have hGH : GARDEN_HEIGHT = 7 := rfl
  have hGW : GARDEN_WIDTH = 15 := rfl
  have hlen2 : (s.tiles.length : Int) = 105 := by rw [hlen]; rfl
  have h16 : idx + 16 < (s.tiles.length : Int) := by omega
  have hst : (evolve_tile_if_needed s idx now ch).1.tiles =
      (setTileAt
        (setTileAt
          (setTileAt
            (setTileAt s.tiles idx (some (cherryPrimary tile now)))
            (idx + 1)
            (some (mkEvoRef (cherryPrimary tile now) color
              (index_to_row_col idx).1 ((index_to_row_col idx).2 + 1))))
          (idx + 15)
          (some (mkEvoRef (cherryPrimary tile now) color
            ((index_to_row_col idx).1 + 1) (index_to_row_col idx).2)))
        (idx + 16)
        (some (mkEvoRef (cherryPrimary tile now) color
          ((index_to_row_col idx).1 + 1) ((index_to_row_col idx).2 + 1)))) := by
    rw [heq]
  refine ⟨?_, ?_, ?_, ?_, ?_⟩
  · rw [hst, tileAt_setTileAt_ne _ (show idx + 16 ≠ idx by omega) _,
      tileAt_setTileAt_ne _ (show idx + 15 ≠ idx by omega) _,
      tileAt_setTileAt_ne _ (show idx + 1 ≠ idx by omega) _]
    exact tileAt_setTileAt_self s.tiles h0 hidxlt _
  · rw [hst, tileAt_setTileAt_ne _ (show idx + 16 ≠ idx + 1 by omega) _,
      tileAt_setTileAt_ne _ (show idx + 15 ≠ idx + 1 by omega) _]
    exact tileAt_setTileAt_self _ (by omega)
      (by rw [setTileAt_length]; omega) _
  · rw [hst, tileAt_setTileAt_ne _ (show idx + 16 ≠ idx + 15 by omega) _]
    exact tileAt_setTileAt_self _ (by omega)
      (by rw [setTileAt_length, setTileAt_length]; omega) _
  · rw [hst]
    exact tileAt_setTileAt_self _ (by omega)
      (by rw [setTileAt_length, setTileAt_length, setTileAt_length]; omega) _
  · intro j hj hj1 hj15 hj16 t' hjt
    rw [hst, tileAt_setTileAt_ne _ (Ne.symm hj16) _,
      tileAt_setTileAt_ne _ (Ne.symm hj15) _,
      tileAt_setTileAt_ne _ (Ne.symm hj1) _,
      tileAt_setTileAt_ne _ (Ne.symm hj) _] at hjt
    exact hu j hj t' hjt

lemma c2_move_cherry (s : Doc) (from_idx to_idx : Int) (s' : Doc)
    (tile : Tile)
    (ht : tileAt s.tiles from_idx = some tile)
    (hkind : tile.kind = "cherry_blossom")
    (h : move_tile s from_idx to_idx = (s', true))
    (hlen : s.tiles.length = EXPECTED_LEN)
    (hu : ∀ j t', tileAt s.tiles j = some t' → t'.id = tile.id →
      j = from_idx ∨ t'.is_reference = true)
    (hno1 : from_idx ≠ to_idx + 1) (hno15 : from_idx ≠ to_idx + 15)
    (hno16 : from_idx ≠ to_idx + 16) :
    tileAt s'.tiles to_idx = some (movedMain tile to_idx) ∧
    tileAt s'.tiles (to_idx + 1) = some (mkMoveRef tile
      (index_to_row_col to_idx).1 ((index_to_row_col to_idx).2 + 1)) ∧
    tileAt s'.tiles (to_idx + 15) = some (mkMoveRef tile
      ((index_to_row_col to_idx).1 + 1) (index_to_row_col to_idx).2) ∧
    tileAt s'.tiles (to_idx + 16) = some (mkMoveRef tile
      ((index_to_row_col to_idx).1 + 1) ((index_to_row_col to_idx).2 + 1)) ∧
    ∀ j, j ≠ to_idx → j ≠ to_idx + 1 → j ≠ to_idx + 15 → j ≠ to_idx + 16 →
      ∀ t', tileAt s'.tiles j = some t' → t'.id ≠ tile.id := by
  obtain ⟨hrb, hcb, hs, hf0, hf1, ht0, ht1, hne⟩ :=
    move_cherry_success_shape s from_idx to_idx s' tile ht hkind h
  obtain ⟨hs1, hs2, hs3, hs4⟩ := index_to_row_col_spec ht0
  have hGH : GARDEN_HEIGHT = 7 := rfl
  have hGW : GARDEN_WIDTH = 15 := rfl
  have hlen2 : (s.tiles.length : Int) = 105 := by rw [hlen]; rfl
  have h16 : to_idx + 16 < (s.tiles.length : Int) := by omega
  refine ⟨?_, ?_, ?_, ?_, ?_⟩
  · rw [hs, tileAt_setTileAt_ne _ hne _]
    exact tileAt_setTileAt_self _ ht0
      (by rw [setTileAt_length, setTileAt_length, setTileAt_length,
        clearRefs_length]; exact ht1) _
  · rw [hs, tileAt_setTileAt_ne _ hno1 _,
      tileAt_setTileAt_ne _ (show to_idx ≠ to_idx + 1 by omega) _,
      tileAt_setTileAt_ne _ (show to_idx + 16 ≠ to_idx + 1 by omega) _,
      tileAt_setTileAt_ne _ (show to_idx + 15 ≠ to_idx + 1 by omega) _]
    exact tileAt_setTileAt_self _ (by omega)
      (by rw [clearRefs_length]; omega) _
  · rw [hs, tileAt_setTileAt_ne _ hno15 _,
      tileAt_setTileAt_ne _ (show to_idx ≠ to_idx + 15 by omega) _,
      tileAt_setTileAt_ne _ (show to_idx + 16 ≠ to_idx + 15 by omega) _]
    exact tileAt_setTileAt_self _ (by omega)
      (by rw [setTileAt_length, clearRefs_length]; omega) _
  · rw [hs, tileAt_setTileAt_ne _ hno16 _,
      tileAt_setTileAt_ne _ (show to_idx ≠ to_idx + 16 by omega) _]
    exact tileAt_setTileAt_self _ (by omega)
      (by rw [setTileAt_length, setTileAt_length, clearRefs_length]; omega) _
  · intro j hj hj1 hj15 hj16 t' hjt
    rw [hs] at hjt
    by_cases hjf : j = from_idx
    · subst hjf
      rw [tileAt_setTileAt_self _ hf0
        (by rw [setTileAt_length, setTileAt_length, setTileAt_length,
          setTileAt_length, clearRefs_length]; exact hf1) none] at hjt
      exact Option.noConfusion hjt
    · rw [tileAt_setTileAt_ne _ (Ne.symm hjf) _,
        tileAt_setTileAt_ne _ (Ne.symm hj) _,
        tileAt_setTileAt_ne _ (Ne.symm hj16) _,
        tileAt_setTileAt_ne _ (Ne.symm hj15) _,
        tileAt_setTileAt_ne _ (Ne.symm hj1) _,
        clearRefs_tileAt] at hjt
      rcases hmm : tileAt s.tiles j with _ | tl
      · rw [hmm] at hjt
        exact Option.noConfusion hjt
      · rw [hmm] at hjt
        dsimp only at hjt
        split at hjt
        · exact Option.noConfusion hjt
        · rename_i hcond
          have he : tl = t' := by injection hjt
          subst he
          intro hid
          rcases hu j tl hmm hid with h1 | h2
          · exact hjf h1
          · exact hcond ⟨hid, h2⟩

lemma tileAt_replicate_none (n : Nat) (j : Int) :
    tileAt (List.replicate n none) j = none := by
  unfold tileAt
  split
  · rw [List.get?_eq_getElem?, List.getElem?_replicate]
    split <;> rfl
  · rfl

/-- C2 (amended): only a cherry_blossom is represented as a primary record
plus three reference records. (i) A successful tree placement writes exactly
ONE record carrying the fresh id (the primary at the clicked anchor cell)
and, if no pre-existing record carried that id, no other cell does. (ii) A
successful tree move likewise leaves exactly one record with the tile's id,
at the destination anchor. (iii) A successful colorful_plant to
cherry_blossom evolution writes the primary at the anchor and reference
records (same id, kind `cherry_blossom`, color, planted/last-watered
timestamps, `is_reference = true`) at the other 3 footprint cells, and no
cell outside the footprint carries the id. (iv) A successful cherry_blossom
move whose source index is not one of the destination's 3 non-anchor
footprint cells yields the moved primary at the destination anchor plus the
3 reference records, and — provided every record sharing the id other than
the source primary is a reference — no cell outside the new footprint
carries the id. -/
theorem C2_two_by_two_records_correct :
    (∀ (s : Doc) (idx now : Int) (fid : Nat) (s' : Doc) (t : Tile),
      place_at_index s "tree" idx now fid = (s', some t) →
      (∀ j t', tileAt s.tiles j = some t' → t'.id ≠ fid) →
      t.id = fid ∧ t.is_reference = false ∧ t.kind = "tree" ∧
      tileAt s'.tiles idx = some t ∧
      ∀ j, j ≠ idx → ∀ t', tileAt s'.tiles j = some t' → t'.id ≠ fid) ∧
    (∀ (s : Doc) (from_idx to_idx : Int) (s' : Doc) (tile : Tile),
      tileAt s.tiles from_idx = some tile →
      tile.kind = "tree" →
      move_tile s from_idx to_idx = (s', true) →
      (∀ j, j ≠ from_idx → ∀ t', tileAt s.tiles j = some t' →
        t'.id ≠ tile.id) →
      tileAt s'.tiles to_idx = some (movedMain tile to_idx) ∧
      (movedMain tile to_idx).id = tile.id ∧
      (movedMain tile to_idx).is_reference = tile.is_reference ∧
      ∀ j, j ≠ to_idx → ∀ t', tileAt s'.tiles j = some t' →
        t'.id ≠ tile.id) ∧
    (∀ (s : Doc) (idx now : Int) (ch : Nat) (tile : Tile) (pa lw : Int)
        (color : String),
      tileAt s.tiles idx = some tile →
      tile.kind = "colorful_plant" →
      tile.evolution_stage = some "colorful_plant" →
      tile.planted_at = some pa →
      tile.last_watered_at = some lw →
      tile.color = some color →
      now - lw ≤ 2 * dayLen →
      now - pa ≥ 7 * dayLen →
      (index_to_row_col idx).1 < GARDEN_HEIGHT - 1 →
      (index_to_row_col idx).2 < GARDEN_WIDTH - 1 →
      tileAt s.tiles (idx + 1) = none →
      tileAt s.tiles (idx + 15) = none →
      tileAt s.tiles (idx + 16) = none →
      s.tiles.length = EXPECTED_LEN →
      (∀ j, j ≠ idx → ∀ t', tileAt s.tiles j = some t' →
        t'.id ≠ tile.id) →
      tileAt (evolve_tile_if_needed s idx now ch).1.tiles idx =
        some (cherryPrimary tile now) ∧
      tileAt (evolve_tile_if_needed s idx now ch).1.tiles (idx + 1) =
        some (mkEvoRef (cherryPrimary tile now) color
          (index_to_row_col idx).1 ((index_to_row_col idx).2 + 1)) ∧
      tileAt (evolve_tile_if_needed s idx now ch).1.tiles (idx + 15) =
        some (mkEvoRef (cherryPrimary tile now) color
          ((index_to_row_col idx).1 + 1) (index_to_row_col idx).2) ∧
      tileAt (evolve_tile_if_needed s idx now ch).1.tiles (idx + 16) =
        some (mkEvoRef (cherryPrimary tile now) color
          ((index_to_row_col idx).1 + 1) ((index_to_row_col idx).2 + 1)) ∧
      ∀ j, j ≠ idx → j ≠ idx + 1 → j ≠ idx + 15 → j ≠ idx + 16 →
        ∀ t', tileAt (evolve_tile_if_needed s idx now ch).1.tiles j =
          some t' → t'.id ≠ tile.id) ∧
    (∀ (s : Doc) (from_idx to_idx : Int) (s' : Doc) (tile : Tile),
      tileAt s.tiles from_idx = some tile →
      tile.kind = "cherry_blossom" →
      move_tile s from_idx to_idx = (s', true) →
      s.tiles.length = EXPECTED_LEN →
      (∀ j t', tileAt s.tiles j = some t' → t'.id = tile.id →
        j = from_idx ∨ t'.is_reference = true) →
      from_idx ≠ to_idx + 1 → from_idx ≠ to_idx + 15 →
      from_idx ≠ to_idx + 16 →
      tileAt s'.tiles to_idx = some (movedMain tile to_idx) ∧
      tileAt s'.tiles (to_idx + 1) = some (mkMoveRef tile
        (index_to_row_col to_idx).1 ((index_to_row_col to_idx).2 + 1)) ∧
      tileAt s'.tiles (to_idx + 15) = some (mkMoveRef tile
        ((index_to_row_col to_idx).1 + 1) (index_to_row_col to_idx).2) ∧
      tileAt s'.tiles (to_idx + 16) = some (mkMoveRef tile
        ((index_to_row_col to_idx).1 + 1) ((index_to_row_col to_idx).2 + 1)) ∧
      ∀ j, j ≠ to_idx → j ≠ to_idx + 1 → j ≠ to_idx + 15 →
        j ≠ to_idx + 16 → ∀ t', tileAt s'.tiles j = some t' →
          t'.id ≠ tile.id) :=
  ⟨c2_place_tree, c2_move_tree, c2_evolve_cherry, c2_move_cherry⟩

/-- Witness for C2 at a concrete input: placing a tree at index 0 of the
empty garden puts the new record at index 0 and nowhere else. -/
theorem C2_two_by_two_records_correct_witness :
    tileAt (place_at_index c2pdoc "tree" 0 0 42).1.tiles 0 =
      some (create_tile "tree" 0 0 0 42) ∧
    ∀ j, j ≠ 0 → ∀ t',
      tileAt (place_at_index c2pdoc "tree" 0 0 42).1.tiles j = some t' →
      t'.id ≠ 42 := by
  have h := C2_two_by_two_records_correct.1 c2pdoc 0 0 42
    (place_at_index c2pdoc "tree" 0 0 42).1 (create_tile "tree" 0 0 0 42)
    (by decide)
    (by
      intro j t' hj
      have hz : c2pdoc.tiles = List.replicate 105 none := rfl
      rw [hz, tileAt_replicate_none] at hj
      exact Option.noConfusion hj)
  exact ⟨h.2.2.2.1, h.2.2.2.2⟩

end AnkiGarden
